import Mathlib

/-!
Shallow embedding of the UCS (control-station) connection multiplexer of the
VSM C++ SDK (src/src/cucs_processor.cpp) and theorems settling the frozen
claims about it.  Machine integers are modelled as Nat (no overflow is
reachable in any statement below); the protobuf Vsm_message is modelled as a
record of exactly the fields the core reads and writes; socket, timer, logging
and device collaborators are modelled as emitted effects.  The byte-level
framing state machine (the reading_header / message_size / shift / to_read
fields of Server_context, driven by Read_completed lines 250-276 and reset at
lines 429-432) is modelled by the Frame_decoder functions; message-level
dispatch is modelled by Process_vsm_message and friends.
-/

namespace VsmSdk

/-- Remote socket address; the core only queries loopback-ness
(Is_loopback_address) and prints it. -/
structure Socket_address where
  is_loopback : Bool
deriving DecidableEq, Repr

/-- Value of a telemetry field: the core only inspects whether the value is
the explicit META_VALUE_NA meta-value (cucs_processor.cpp lines 307-308);
the rest of the field message is opaque payload. -/
inductive Meta_value where
  | na
  | other (v : Nat)
deriving DecidableEq, Repr

/-- One telemetry_fields entry of a device_status payload.  field_id is the
cache key; meta_value models value().has_meta_value()/value().meta_value();
data stands for the remaining opaque contents of the field message. -/
structure Telemetry_field where
  field_id : Nat
  meta_value : Option Meta_value
  data : Nat
deriving DecidableEq, Repr

/-- One command_availability entry of a device_status payload; id is the
cache key, data the remaining opaque contents. -/
structure Command_availability where
  id : Nat
  data : Nat
deriving DecidableEq, Repr

/-- The device_status payload of a Vsm_message. -/
structure Device_status where
  telemetry_fields : List Telemetry_field
  command_availability : List Command_availability
deriving DecidableEq, Repr

/-- The register_peer payload of a Vsm_message.  Option models protobuf field
presence (has_peer_type and so on). -/
structure Register_peer_payload where
  peer_id : Nat
  peer_type : Option Nat
  version_major : Option Nat
  version_minor : Option Nat
  version_build : Option Nat
deriving DecidableEq, Repr

/-- The device_response payload of a Vsm_message; the core dispatches on
code() and logs progress()/status(), so only code is modelled. -/
structure Device_response where
  code : Nat
deriving DecidableEq, Repr

/-- The protobuf Vsm_message restricted to the fields the core touches.
Option models protobuf presence bits (has_message_id and so on); protobuf
getters return 0 or false when the field is absent. -/
structure Vsm_message where
  device_id : Nat := 0
  message_id : Option Nat := none
  response_required : Option Bool := none
  register_peer : Option Register_peer_payload := none
  register_device : Bool := false
  unregister_device : Bool := false
  device_response : Option Device_response := none
  device_status : Option Device_status := none
deriving DecidableEq, Repr

/-- The protobuf getter message_id(): returns 0 when the field is unset. -/
def Vsm_message.message_id_val (m : Vsm_message) : Nat :=
  m.message_id.getD 0

/-- Modelled from the spec: proto enum value for PEER_TYPE_SERVER.  The
numeric enum values are defined in the protobuf schema, which is not under
src; only distinctness of the two values matters to the core. -/
def PEER_TYPE_SERVER : Nat := 0

/-- Modelled from the spec: proto enum value for PEER_TYPE_VSM (see
PEER_TYPE_SERVER). -/
def PEER_TYPE_VSM : Nat := 1

/-- Modelled from the spec: proto enum value for STATUS_OK.  The numeric
values of the Status_code enum live in the protobuf schema (not under src);
the core only compares codes for equality, so only distinctness matters. -/
def STATUS_OK : Nat := 0

/-- Modelled from the spec: proto enum value for STATUS_IN_PROGRESS (see
STATUS_OK). -/
def STATUS_IN_PROGRESS : Nat := 1

/-- Modelled from the spec: proto enum value for STATUS_FAILED (see
STATUS_OK). -/
def STATUS_FAILED : Nat := 2

/-- Modelled from the spec: proto enum value for STATUS_INVALID_SESSION_ID
(see STATUS_OK). -/
def STATUS_INVALID_SESSION_ID : Nat := 3

/-- Modelled from the spec: SUPPORTED_UCS_VERSION_MAJOR is declared in the
header but its value is defined outside src; the concrete value is immaterial
to every claim (the compatibility check is proved symbolically). -/
def SUPPORTED_UCS_VERSION_MAJOR : Nat := 3

/-- Modelled from the spec: SUPPORTED_UCS_VERSION_MINOR, see
SUPPORTED_UCS_VERSION_MAJOR. -/
def SUPPORTED_UCS_VERSION_MINOR : Nat := 6

/-- Modelled from the spec: the stable process-instance identifier returned
by Get_application_instance_id (defined outside src). -/
def APPLICATION_INSTANCE_ID : Nat := 77

/-- Modelled from the spec: SDK_VERSION_MAJOR (defined outside src). -/
def SDK_VERSION_MAJOR : Nat := 3

/-- Modelled from the spec: SDK_VERSION_MINOR (defined outside src). -/
def SDK_VERSION_MINOR : Nat := 6

/-- Modelled from the spec: SDK_VERSION_BUILD (defined outside src),
modelled as an opaque number. -/
def SDK_VERSION_BUILD : Nat := 1

/-- Modelled from the spec: REGISTER_PEER_TIMEOUT in seconds, declared in
the header but defined outside src; every claim treats it symbolically. -/
def REGISTER_PEER_TIMEOUT : Int := 10

/-- Modelled from the spec: PROTO_MAX_MESSAGE_LEN, the implementation-chosen
hard cap on frame length, defined outside src.  The codec theorems below
quantify over the cap, so the concrete value is immaterial; this constant is
used only to instantiate concrete inputs. -/
def PROTO_MAX_MESSAGE_LEN : Nat := 1048576

/-! ### Frame codec

The framing state machine of Read_completed (cucs_processor.cpp lines
250-276, reset lines 429-432).  These four fields live inside the
per-connection Server_context in the source; they are factored into their own
record here so that the codec can be reasoned about in isolation.  A frame
payload is modelled as its list of bytes (the protobuf serialization of the
message); ParseFromArray on a payload produced by SerializeToArray of the
same message always succeeds, so parsing is the identity on payloads here. -/

/-- Framing state of a connection: reading_header, message_size, shift and
to_read, with the initial values Read_completed resets to after each body
(lines 429-432) and the values a fresh Server_context starts from. -/
structure Frame_decoder where
  reading_header : Bool := true
  message_size : Nat := 0
  shift : Nat := 0
  to_read : Nat := 1
deriving DecidableEq, Repr

/-- Initial framing state (reading_header = true, message_size = 0,
shift = 0, to_read = 1). -/
def init_decoder : Frame_decoder := {}

/-- One header byte, lines 255-276: or the low 7 bits into message_size at
the current shift, fail the connection when the accumulated size exceeds the
cap, continue the header on a set high bit, otherwise enter the body state
(or swallow a zero-length frame and stay in the header state).  none means
the connection is failed. -/
def decode_header_byte (cap : Nat) (d : Frame_decoder) (byte : Nat) :
    Option Frame_decoder :=
  let ms := d.message_size ||| ((byte &&& 0x7f) <<< d.shift)
  if ms > cap then
    none
  else if byte &&& 0x80 ≠ 0 then
    some { d with message_size := ms, shift := d.shift + 7 }
  else if ms ≠ 0 then
    some { reading_header := false, message_size := ms, shift := 0, to_read := ms }
  else
    some { reading_header := true, message_size := ms, shift := 0, to_read := 1 }

/-- Run the decoder over a byte stream following the read discipline of
Schedule_next_read (Read(to_read, to_read, ...)): one byte per read while in
the header state, exactly message_size bytes for a body.  fuel bounds the
number of reads; every read consumes at least one byte, so fuel equal to the
input length never runs out (decode_stream below).  Returns the final framing
state and the list of complete frame payloads delivered, or none when the
connection is failed (oversize header, or a body read that cannot be
satisfied). -/
def decode_run (cap : Nat) : Nat → Frame_decoder → List Nat →
    Option (Frame_decoder × List (List Nat))
  | _, d, [] => some (d, [])
  | 0, _, _ :: _ => none
  | fuel + 1, d, b :: rest =>
    if d.reading_header then
      match decode_header_byte cap d b with
      | none => none
      | some d1 => decode_run cap fuel d1 rest
    else if 0 < d.to_read ∧ d.to_read ≤ rest.length + 1 then
      match decode_run cap fuel init_decoder ((b :: rest).drop d.to_read) with
      | none => none
      | some (df, frames) => some (df, (b :: rest).take d.to_read :: frames)
    else none

/-- Feed a complete byte stream to the frame decoder from state d. -/
def decode_stream (cap : Nat) (d : Frame_decoder) (input : List Nat) :
    Option (Frame_decoder × List (List Nat)) :=
  decode_run cap input.length d input

/-- The do-while loop of Send_ucs_message lines 603-611: emit the
little-endian base-128 varint of n, setting the high bit on every byte that
has a successor.  fuel makes the recursion structural; varint_bytes below
supplies fuel that never runs out (the quotient chain n, n / 128, ... is
strictly decreasing). -/
def varint_run : Nat → Nat → List Nat
  | 0, n => [n &&& 0x7f]
  | fuel + 1, n =>
    let byte := n &&& 0x7f
    let rest := n >>> 7
    if rest = 0 then [byte] else (byte ||| 0x80) :: varint_run fuel rest

/-- The varint length prefix of n as emitted by Send_ucs_message. -/
def varint_bytes (n : Nat) : List Nat :=
  varint_run n n

/-- The encoder of Send_ucs_message lines 599-613: the varint of the payload
length followed by the payload bytes. -/
def frame_encode (payload : List Nat) : List Nat :=
  varint_bytes payload.length ++ payload

/-! ### Connection and device state

The C++ unordered_map containers are modelled as association lists in
insertion order; std::map pending_registrations is likewise an association
list whose keys (allocated message ids) are inserted in increasing order, so
list order coincides with key order.  The std::set registered_devices is a
duplicate-free list. -/

/-- Per-connection state (the Server_context of the source).  The Server_context
struct definition itself is not under src (only its uses are); the fields and
their meaning are exactly the ones cucs_processor.cpp reads and writes, and
the framing fields mirror Frame_decoder.  Initial values are those of
init_server_context below. -/
structure Server_context where
  stream_id : Nat
  address : Socket_address
  ucs_id : Option Nat
  primary : Bool
  is_compatible : Bool
  reading_header : Bool
  message_size : Nat
  shift : Nat
  to_read : Nat
  last_message_time : Int
  pending_registrations : List (Nat × Nat)
  registered_devices : List Nat
deriving DecidableEq, Repr

/-- Modelled from the spec: the initial values of a freshly accepted
Server_context (struct initializers are outside src).  peer id unset, not
primary, compatible until proven otherwise, framing in its initial state,
empty registration tracking; stream id, address and accept time are set by
On_incoming_connection (cucs_processor.cpp lines 200-205). -/
def init_server_context (stream_id : Nat) (addr : Socket_address) (now : Int) :
    Server_context :=
  { stream_id := stream_id
    address := addr
    ucs_id := none
    primary := false
    is_compatible := true
    reading_header := true
    message_size := 0
    shift := 0
    to_read := 1
    last_message_time := now
    pending_registrations := []
    registered_devices := [] }

/-- Per-device state (the Vehicle_context of the source): the registration
message assembled at registration time and the telemetry / availability
caches.  The owning Device handle is represented by the device id through
which effects are addressed. -/
structure Vehicle_context where
  registration_message : Vsm_message
  telemetry_cache : List (Nat × Telemetry_field)
  availability_cache : List (Nat × Command_availability)
deriving DecidableEq, Repr

/-- One entry of the Ucs_info list delivered to a device by
Notify_device_about_ucs_connections (cucs_processor.cpp lines 711-715). -/
structure Ucs_info where
  ucs_id : Nat
  address : Socket_address
  primary : Bool
  last_message_time : Int
deriving DecidableEq, Repr

/-- The mutable state of the Cucs_processor: connection table, vehicle table,
the shared id counter (ucs_id_counter, used for both stream ids and message
ids via Get_next_id), and the two configuration values read at enable time. -/
structure Cucs_state where
  ucs_connections : List (Nat × Server_context) := []
  vehicles : List (Nat × Vehicle_context) := []
  ucs_id_counter : Nat := 1
  keep_alive_timeout : Int := 0
  transport_detector_on_when_diconnected : Bool := false
deriving DecidableEq, Repr

/-- State right after On_enable with no keep_alive_timeout configured. -/
def init_state : Cucs_state := {}

/-- Externally visible actions of the core: writes and closes on connection
streams, Handle_ucs_info requests submitted to devices, transport-detector
activation, forwarding of an inbound message to On_ucs_message, and the
error/warning log lines the claims mention.  Purely informational log lines
are elided. -/
inductive Effect where
  | stream_write (stream_id : Nat) (msg : Vsm_message)
  | stream_close (stream_id : Nat)
  | close_raw_stream
  | notify_ucs_info (device_id : Nat) (data : List Ucs_info)
  | activate_detector (active : Bool)
  | on_ucs_message (stream_id : Nat) (msg : Vsm_message)
  | log_err (code : Nat)
  | log_warn (code : Nat)
deriving DecidableEq, Repr

/-- Per-connection action of one On_timer tick: close the stream, or send a
message on it. -/
inductive Timer_action where
  | close (stream_id : Nat)
  | send (stream_id : Nat) (msg : Vsm_message)
deriving DecidableEq, Repr

/-- The keep-alive ping built by On_timer lines 175-177: device_id 0 and
response_required true, message id left for the send path to allocate. -/
def ping_message : Vsm_message :=
  { device_id := 0, response_required := some true }

/-- The stream a timer action addresses. -/
def timer_action_sid : Timer_action → Nat
  | Timer_action.close i => i
  | Timer_action.send i _ => i

/-! ### Small container helpers (map / set operations of the source) -/

/-- Look up a connection by stream id (ucs_connections.find). -/
def get_conn (s : Cucs_state) (stream_id : Nat) : Option Server_context :=
  (s.ucs_connections.find? (fun c => c.1 == stream_id)).map (fun c => c.2)

/-- Replace the connection stored under a stream id by applying f to it
(mutation of the mapped Server_context through the iterator). -/
def update_conn (s : Cucs_state) (stream_id : Nat)
    (f : Server_context → Server_context) : Cucs_state :=
  { s with ucs_connections :=
      s.ucs_connections.map (fun c => if c.1 == stream_id then (c.1, f c.2) else c) }

/-- std::set insert: add the element unless already present. -/
def set_insert (s : List Nat) (x : Nat) : List Nat :=
  if x ∈ s then s else s ++ [x]

/-- std::map insert: add the binding unless the key is already present.
Message-id keys are allocated in increasing order, so appending keeps the
list in key order. -/
def pending_insert (l : List (Nat × Nat)) (k v : Nat) : List (Nat × Nat) :=
  if (l.find? (fun m => m.1 == k)).isSome then l else l ++ [(k, v)]

/-- std::map erase by key (erase of the iterator returned by find). -/
def pending_erase_key : List (Nat × Nat) → Nat → List (Nat × Nat)
  | [], _ => []
  | e :: rest, k => if e.1 == k then rest else e :: pending_erase_key rest k

/-- The erase-and-break loop of Send_ucs_message lines 582-587: remove the
first pending-registration entry whose mapped device id matches, leaving any
later entries for the same device in place. -/
def pending_erase_first_value : List (Nat × Nat) → Nat → List (Nat × Nat)
  | [], _ => []
  | e :: rest, d => if e.2 == d then rest else e :: pending_erase_first_value rest d

/-- The second failover loop of Close_ucs_stream lines 676-684: promote the
first surviving connection of the peer (this loop does break). -/
def promote_first : List (Nat × Server_context) → Nat →
    List (Nat × Server_context)
  | [], _ => []
  | u :: rest, pid =>
    if u.2.ucs_id == some pid then (u.1, { u.2 with primary := true }) :: rest
    else u :: promote_first rest pid

/-- Modelled from the spec: Get_next_id, the allocator behind stream ids and
message ids, is declared in the header but defined outside src; the spec
describes it as a monotonically increasing counter never returning 0, and the
constructor initialises ucs_id_counter to 1. -/
def Get_next_id (s : Cucs_state) : Nat × Cucs_state :=
  (s.ucs_id_counter, { s with ucs_id_counter := s.ucs_id_counter + 1 })

/-! ### The per-connection send path (Send_ucs_message, lines 545-626) -/

/-- Tail of the send path, lines 592-624: allocate a message id when a
response is required but none is present, then frame and write the message.
The byte-level framing (frame_encode of the serialized payload) is covered by
the codec definitions; the write effect carries the message itself. -/
def send_finish (s : Cucs_state) (stream_id : Nat) (msg : Vsm_message) :
    Cucs_state × Vsm_message × List Effect :=
  if msg.message_id.isNone && msg.response_required == some true then
    let idr := Get_next_id s
    let m := { msg with message_id := some idr.1 }
    (idr.2, m, [Effect.stream_write stream_id m])
  else
    (s, msg, [Effect.stream_write stream_id msg])

/-- The part of the send path after the unknown-peer gate, lines 563-624:
silently drop on an incompatible connection; on register_device force
response_required, allocate a message id and record the pending registration;
on any other message with a non-zero device id require prior registration
(silently dropping otherwise) and handle unregister_device bookkeeping; then
hand over to send_finish. -/
def Send_ucs_message_body (s : Cucs_state) (stream_id : Nat)
    (ctx : Server_context) (msg1 : Vsm_message) :
    Cucs_state × Vsm_message × List Effect :=
  if !ctx.is_compatible then
    (s, msg1, [])
  else if msg1.register_device then
    let idr := Get_next_id s
    let msg2 := { msg1 with response_required := some true, message_id := some idr.1 }
    let s2 := update_conn idr.2 stream_id (fun c =>
      { c with pending_registrations :=
          pending_insert c.pending_registrations idr.1 msg2.device_id })
    send_finish s2 stream_id msg2
  else if msg1.device_id ≠ 0 then
    if msg1.device_id ∉ ctx.registered_devices then
      (s, msg1, [])
    else if msg1.unregister_device then
      let s2 := update_conn s stream_id (fun c =>
        { c with
            registered_devices := c.registered_devices.erase msg1.device_id
            pending_registrations :=
              pending_erase_first_value c.pending_registrations msg1.device_id })
      send_finish s2 stream_id msg1
    else
      send_finish s stream_id msg1
  else
    send_finish s stream_id msg1

/-- The per-connection send, Send_ucs_message(stream_id, message) lines
545-626: refuse anything but register_peer while the peer is unknown (forcing
device_id to 0 on register_peer), then run the rest of the send path
(Send_ucs_message_body).  Returns the updated processor state, the message as
mutated by the send path (the source mutates the caller-owned message in
place), and the emitted effects. -/
def Send_ucs_message (s : Cucs_state) (stream_id : Nat) (msg0 : Vsm_message) :
    Cucs_state × Vsm_message × List Effect :=
  match get_conn s stream_id with
  | none => (s, msg0, [])
  | some ctx =>
    match ctx.ucs_id, msg0.register_peer with
    | none, none => (s, msg0, [Effect.log_err 0])
    | none, some _ =>
      Send_ucs_message_body s stream_id ctx { msg0 with device_id := 0 }
    | some _, _ => Send_ucs_message_body s stream_id ctx msg0

/-- Broadcast_message_to_ucs lines 526-535: send only on connections that are
primary at iteration time (sending never toggles primary, so snapshotting the
primary connections first is equivalent to the source loop). -/
def Broadcast_message_to_ucs (s : Cucs_state) (msg : Vsm_message) :
    Cucs_state × List Effect :=
  (s.ucs_connections.filter (fun c => c.2.primary)).foldl
    (fun acc c =>
      let r := Send_ucs_message acc.1 c.1 msg
      (r.1, acc.2 ++ r.2.2))
    (s, [])

/-- Send_vehicle_registrations lines 463-470: replay every known vehicle
registration message on one connection through the normal send path. -/
def Send_vehicle_registrations (s : Cucs_state) (stream_id : Nat) :
    Cucs_state × List Effect :=
  s.vehicles.foldl
    (fun acc v =>
      let r := Send_ucs_message acc.1 stream_id v.2.registration_message
      (r.1, acc.2 ++ r.2.2))
    (s, [])

/-- Notify_device_about_ucs_connections lines 703-730: gather the Ucs_info of
every connection the device is registered on and submit a Handle_ucs_info
request to the device context; a no-op when the device is unknown.  Core
state is not changed. -/
def Notify_device_about_ucs_connections (s : Cucs_state) (dev_id : Nat) :
    List Effect :=
  match s.vehicles.find? (fun v => v.1 == dev_id) with
  | none => []
  | some _ =>
    let data := s.ucs_connections.filterMap (fun u =>
      if dev_id ∈ u.2.registered_devices then
        some { ucs_id := u.2.ucs_id.getD 0
               address := u.2.address
               primary := u.2.primary
               last_message_time := u.2.last_message_time : Ucs_info }
      else none)
    [Effect.notify_ucs_info dev_id data]

/-- Close_ucs_stream lines 639-701: close the stream, snapshot primary flag,
peer id (0 when unset) and registered devices, erase the connection, run
primary failover (first loop: promote every surviving loopback sibling, no
break; second loop: otherwise promote the first sibling found), notify every
device that was registered on the closed connection, and deactivate the
transport detector when the last connection is gone. -/
def Close_ucs_stream (s : Cucs_state) (stream_id : Nat) :
    Cucs_state × List Effect :=
  match get_conn s stream_id with
  | none => (s, [])
  | some ctx =>
    let primary := ctx.primary
    let ucs_id := ctx.ucs_id.getD 0
    let devices := ctx.registered_devices
    let conns0 := s.ucs_connections.eraseP (fun c => c.1 == stream_id)
    let conns :=
      if primary then
        if conns0.any (fun u => u.2.ucs_id == some ucs_id && u.2.address.is_loopback) then
          conns0.map (fun u =>
            if u.2.ucs_id == some ucs_id && u.2.address.is_loopback then
              (u.1, { u.2 with primary := true })
            else u)
        else
          promote_first conns0 ucs_id
      else conns0
    let s1 := { s with ucs_connections := conns }
    let notify_effs := devices.foldl
      (fun acc d => acc ++ Notify_device_about_ucs_connections s1 d) []
    let deact :=
      if conns.length = 0 && !s1.transport_detector_on_when_diconnected then
        [Effect.activate_detector false]
      else []
    (s1, Effect.stream_close stream_id :: (notify_effs ++ deact))

/-! ### Inbound message dispatch (Read_completed, lines 282-422) -/

/-- The register_peer handshake, lines 346-418, reached with the peer type
already checked and last_message_time already refreshed on ctx: detect
duplicate connections of the same peer id, run loopback-preferring primary
selection (the source loop demotes only the first primary sibling found and
then breaks; a new peer always becomes primary), record the peer id, apply
the version compatibility check, activate the transport detector on a first
connection, and replay the vehicle catalogue. -/
def Handle_register_peer (s : Cucs_state) (stream_id : Nat)
    (ctx : Server_context) (rp : Register_peer_payload) :
    Cucs_state × List Effect :=
  let new_peer := rp.peer_id
  let dupe := s.ucs_connections.any (fun u => u.2.ucs_id == some new_peer)
  let first_primary := s.ucs_connections.find? (fun u =>
    u.2.ucs_id == some new_peer && u.2.primary)
  let do_switch :=
    match first_primary with
    | some o => !o.2.address.is_loopback || ctx.address.is_loopback
    | none => false
  let s1 :=
    match first_primary with
    | some o =>
      if do_switch then update_conn s o.1 (fun c => { c with primary := false })
      else s
    | none => s
  let ver_major := rp.version_major.getD 0
  let ver_minor := rp.version_minor.getD 0
  let ctx1 := { ctx with
    ucs_id := some new_peer
    primary := if do_switch then true else if !dupe then true else ctx.primary
    is_compatible :=
      if ver_major < SUPPORTED_UCS_VERSION_MAJOR ||
          (ver_major == SUPPORTED_UCS_VERSION_MAJOR &&
            ver_minor < SUPPORTED_UCS_VERSION_MINOR) then
        false
      else ctx.is_compatible }
  let s2 := update_conn s1 stream_id (fun _ => ctx1)
  let eff := if dupe then [] else [Effect.activate_detector true]
  let r := Send_vehicle_registrations s2 stream_id
  (r.1, eff ++ r.2)

/-- Dispatch of a parsed message on a connection whose peer is known, lines
282-340: refresh last_message_time; a device_response whose message id is a
pending registration is a registration acknowledgement dispatched on its
status code (STATUS_OK inserts the device, notifies it of its peer set and
replays the telemetry / availability caches on this connection, then drops
the pending entry — all only when the device is still in the vehicle table;
STATUS_IN_PROGRESS keeps the pending entry; any other code drops it);
everything else is passed to On_ucs_message. -/
def Process_known_peer_message (s : Cucs_state) (stream_id : Nat)
    (ctx : Server_context) (msg : Vsm_message) (now : Int) :
    Cucs_state × List Effect :=
  let ctx := { ctx with last_message_time := now }
  let s := update_conn s stream_id (fun _ => ctx)
  match msg.device_response with
  | none => (s, [Effect.on_ucs_message stream_id msg])
  | some resp =>
    match ctx.pending_registrations.find? (fun m => m.1 == msg.message_id_val) with
    | none => (s, [Effect.on_ucs_message stream_id msg])
    | some pend =>
      let dev := pend.2
      if resp.code = STATUS_OK then
        match s.vehicles.find? (fun v => v.1 == dev) with
        | some v =>
          let ctx1 := { ctx with
            registered_devices := set_insert ctx.registered_devices dev }
          let s1 := update_conn s stream_id (fun _ => ctx1)
          let eff1 := Notify_device_about_ucs_connections s1 dev
          let reg : Vsm_message :=
            { device_id := v.1,
              device_status := some
                { telemetry_fields :=
                    ((v.2.telemetry_cache.filter
                      (fun e => !(e.2.meta_value == some Meta_value.na))).map
                        (fun e => e.2)),
                  command_availability :=
                    v.2.availability_cache.map (fun e => e.2) } }
          let r := Send_ucs_message s1 stream_id reg
          let s3 := update_conn r.1 stream_id (fun c =>
            { c with pending_registrations :=
                pending_erase_key c.pending_registrations pend.1 })
          (s3, eff1 ++ r.2.2)
        | none =>
          (update_conn s stream_id (fun c =>
            { c with pending_registrations :=
                pending_erase_key c.pending_registrations pend.1 }), [])
      else if resp.code = STATUS_IN_PROGRESS then
        (s, [])
      else
        (update_conn s stream_id (fun c =>
          { c with pending_registrations :=
              pending_erase_key c.pending_registrations pend.1 }), [])

/-- Dispatch of one parsed Vsm_message as done by Read_completed lines
282-422 once a frame has been decoded (the framing itself is modelled by
decode_stream): messages on an unknown-peer connection are register_peer
handshakes (wrong peer type closes the connection) or are logged and dropped
without touching any connection state; messages on a known-peer connection go
through Process_known_peer_message. -/
def Process_vsm_message (s : Cucs_state) (stream_id : Nat) (msg : Vsm_message)
    (now : Int) : Cucs_state × List Effect :=
  match get_conn s stream_id with
  | none => (s, [])
  | some ctx =>
    match ctx.ucs_id with
    | some _ => Process_known_peer_message s stream_id ctx msg now
    | none =>
      match msg.register_peer with
      | none => (s, [Effect.log_warn 0])
      | some rp =>
        let ctx := { ctx with last_message_time := now }
        let s := update_conn s stream_id (fun _ => ctx)
        if rp.peer_type = none ∨ rp.peer_type = some PEER_TYPE_SERVER then
          Handle_register_peer s stream_id ctx rp
        else
          let r := Close_ucs_stream s stream_id
          (r.1, Effect.log_warn 1 :: r.2)

/-! ### Timer tick (On_timer, lines 161-189) -/

/-- The per-connection decision of one timer tick: on a known peer with a
configured keep_alive_timeout, close the stream when the last message is too
old, otherwise send a ping; on an unknown peer, close after
REGISTER_PEER_TIMEOUT; otherwise do nothing. -/
def On_timer_action (kat : Int) (now : Int) (c : Nat × Server_context) :
    Option Timer_action :=
  match c.2.ucs_id with
  | some _ =>
    if kat ≠ 0 then
      if c.2.last_message_time + kat < now then some (Timer_action.close c.1)
      else some (Timer_action.send c.1 ping_message)
    else none
  | none =>
    if c.2.last_message_time + REGISTER_PEER_TIMEOUT < now then
      some (Timer_action.close c.1)
    else none

/-- On_timer lines 161-189: walk all connections collecting the per-connection
actions, and return true so the timer reschedules. -/
def On_timer (s : Cucs_state) (now : Int) : List Timer_action × Bool :=
  (s.ucs_connections.filterMap (On_timer_action s.keep_alive_timeout now), true)

/-! ### Device-facing operations and connection acceptance -/

/-- On_register_vehicle lines 440-461: reject a duplicate device id with an
exception, store the Vehicle_context with the registration message the device
populated (reg_body stands for what vehicle->Register wrote; device_id is
forced to the session id first), then broadcast the registration message. -/
def On_register_vehicle (s : Cucs_state) (device_id : Nat)
    (reg_body : Vsm_message) :
    Except String (Cucs_state × List Effect) :=
  if (s.vehicles.find? (fun v => v.1 == device_id)).isSome then
    Except.error "Exception: Vehicle already registered"
  else
    let reg := { reg_body with device_id := device_id }
    let s1 := { s with vehicles :=
        s.vehicles ++ [(device_id, ⟨reg, [], []⟩)] }
    Except.ok (Broadcast_message_to_ucs s1 reg)

/-- On_unregister_vehicle lines 472-486: an unknown device id raises
Invalid_param_exception (so the vehicle table is untouched and nothing is
broadcast); otherwise build the unregister_device notice, erase the vehicle
and broadcast the notice. -/
def On_unregister_vehicle (s : Cucs_state) (device_id : Nat) :
    Except String (Cucs_state × List Effect) :=
  if (s.vehicles.find? (fun v => v.1 == device_id)).isNone then
    Except.error "Invalid_param_exception: Unregister unknown device id"
  else
    let reg : Vsm_message := { device_id := device_id, unregister_device := true }
    let s1 := { s with vehicles := s.vehicles.filter (fun v => !(v.1 == device_id)) }
    Except.ok (Broadcast_message_to_ucs s1 reg)

/-- On_incoming_connection lines 191-221: reject non-TCP streams, allocate a
stream id, store a fresh Server_context, and send this VSM's own
register_peer on the new connection (the initial read scheduling is covered
by the framing model). -/
def On_incoming_connection (s : Cucs_state) (is_tcp : Bool)
    (addr : Socket_address) (now : Int) : Cucs_state × List Effect :=
  if !is_tcp then (s, [Effect.close_raw_stream])
  else
    let idr := Get_next_id s
    let s1 := { idr.2 with ucs_connections :=
        idr.2.ucs_connections ++ [(idr.1, init_server_context idr.1 addr now)] }
    let msg : Vsm_message :=
      { device_id := 0,
        register_peer := some
          { peer_id := APPLICATION_INSTANCE_ID,
            peer_type := some PEER_TYPE_VSM,
            version_major := some SDK_VERSION_MAJOR,
            version_minor := some SDK_VERSION_MINOR,
            version_build := some SDK_VERSION_BUILD } }
    let r := Send_ucs_message s1 idr.1 msg
    (r.1, r.2.2)

/-! ### Reachability -/

/-- External events driving the core: an accepted TCP connection, a parsed
inbound message on a connection, a read error on a connection (peer close or
I/O failure, triggering Close_ucs_stream), and the device-facing register /
unregister calls. -/
inductive Ucs_event where
  | accept (addr : Socket_address) (now : Int)
  | recv (stream_id : Nat) (msg : Vsm_message) (now : Int)
  | recv_error (stream_id : Nat)
  | register_device (device_id : Nat) (reg_body : Vsm_message)
  | unregister_device (device_id : Nat)
deriving Repr

/-- One step of the core: dispatch an external event to the corresponding
handler (an exception from a device-facing call leaves the state unchanged,
as the throw propagates out of the processing handler). -/
def step (s : Cucs_state) : Ucs_event → Cucs_state × List Effect
  | Ucs_event.accept addr now => On_incoming_connection s true addr now
  | Ucs_event.recv stream_id msg now => Process_vsm_message s stream_id msg now
  | Ucs_event.recv_error stream_id => Close_ucs_stream s stream_id
  | Ucs_event.register_device d m =>
    match On_register_vehicle s d m with
    | Except.ok r => r
    | Except.error _ => (s, [])
  | Ucs_event.unregister_device d =>
    match On_unregister_vehicle s d with
    | Except.ok r => r
    | Except.error _ => (s, [])

/-- Run a sequence of events from a state, discarding effects. -/
def run (s : Cucs_state) (evs : List Ucs_event) : Cucs_state :=
  evs.foldl (fun s e => (step s e).1) s

/-! ### Concrete inputs used by the witnesses and counterexamples below -/

/-- A loopback address. -/
def loopback_addr : Socket_address := ⟨true⟩

/-- A non-loopback address. -/
def remote_addr : Socket_address := ⟨false⟩

/-- A well-formed inbound register_peer handshake message for peer p with a
supported version. -/
def mk_register_peer (p : Nat) : Vsm_message :=
  { register_peer := some
      { peer_id := p,
        peer_type := some PEER_TYPE_SERVER,
        version_major := some SUPPORTED_UCS_VERSION_MAJOR,
        version_minor := some SUPPORTED_UCS_VERSION_MINOR,
        version_build := none } }

/-- A handshaken connection context for peer 5 used to build concrete
states: given stream id, loopback-ness and primary flag. -/
def mk_conn (id : Nat) (lbk : Bool) (pri : Bool) : Server_context :=
  { stream_id := id, address := ⟨lbk⟩, ucs_id := some 5, primary := pri,
    is_compatible := true, reading_header := true, message_size := 0,
    shift := 0, to_read := 1, last_message_time := 0,
    pending_registrations := [], registered_devices := [] }

/-- Event trace reaching the two-primaries state: three loopback connections
handshake as peer 5 (each handshake switches primary to the newcomer because
the newcomer is loopback), then the current primary (stream 3) dies. -/
def C1_trace : List Ucs_event :=
  [Ucs_event.accept loopback_addr 0, Ucs_event.recv 1 (mk_register_peer 5) 0,
   Ucs_event.accept loopback_addr 0, Ucs_event.recv 2 (mk_register_peer 5) 0,
   Ucs_event.accept loopback_addr 0, Ucs_event.recv 3 (mk_register_peer 5) 0,
   Ucs_event.recv_error 3]

/-- State with a non-loopback primary (stream 3) and two non-primary loopback
siblings for peer 5, about to lose the primary. -/
def C2_pre : Cucs_state :=
  { ucs_connections :=
      [(1, mk_conn 1 true false), (2, mk_conn 2 true false), (3, mk_conn 3 false true)],
    ucs_id_counter := 4 }

/-- State with a non-loopback primary for peer 5 on stream 1 and a fresh
un-handshaken non-loopback connection on stream 2. -/
def C3_pre : Cucs_state :=
  { ucs_connections :=
      [(1, mk_conn 1 false true),
       (2, { mk_conn 2 false false with ucs_id := none })],
    ucs_id_counter := 3 }

/-- Handshaken connection for peer 5 with a pending registration of device 7
under message id 4. -/
def C5_ctx : Server_context :=
  { mk_conn 1 true true with pending_registrations := [(4, 7)] }

/-- State in which the registration of device 7 is pending on connection 1
but device 7 is no longer in the vehicle table. -/
def C5_pre : Cucs_state :=
  { ucs_connections := [(1, C5_ctx)], ucs_id_counter := 8 }

/-- A STATUS_OK device_response acknowledging message id 4. -/
def C5_ok_response : Vsm_message :=
  { message_id := some 4, device_response := some { code := STATUS_OK } }

/-- Vehicle context for device 7 with three cached telemetry fields (field 2
holding the N/A meta-value) and one cached availability entry. -/
def C5_vehicle : Vehicle_context :=
  { registration_message := { device_id := 7, register_device := true },
    telemetry_cache :=
      [(1, ⟨1, none, 10⟩), (2, ⟨2, some Meta_value.na, 11⟩),
       (3, ⟨3, some (Meta_value.other 4), 12⟩)],
    availability_cache := [(9, ⟨9, 20⟩)] }

/-- Like C5_pre but with device 7 still registered in the vehicle table. -/
def C5_pre_live : Cucs_state :=
  { ucs_connections := [(1, C5_ctx)], vehicles := [(7, C5_vehicle)],
    ucs_id_counter := 8 }

/-- Handshaken compatible connection for peer 5 on which device 7 is
registered and has two pending registration entries (reachable through a
register / unregister / register / unregister / register sequence answered by
a single STATUS_OK, since an unregister for a not-yet-registered device is
dropped without cleaning the pending entry). -/
def C6_ctx : Server_context :=
  { mk_conn 1 true true with
    pending_registrations := [(10, 7), (11, 7)],
    registered_devices := [7] }

/-- State holding C6_ctx on stream 1. -/
def C6_pre : Cucs_state :=
  { ucs_connections := [(1, C6_ctx)], ucs_id_counter := 12 }

/-- An unregister_device notice for device 7. -/
def C6_unregister_msg : Vsm_message :=
  { device_id := 7, unregister_device := true }

/-- An accepted connection that has not completed the handshake yet. -/
def C7_ctx : Server_context :=
  { mk_conn 2 false false with ucs_id := none }

/-- State holding only the un-handshaken connection C7_ctx on stream 2. -/
def C7_state : Cucs_state :=
  { ucs_connections := [(2, C7_ctx)], ucs_id_counter := 3 }

/-- A state with one handshaken connection (C6_ctx on stream 1, last message
at time 0) and a configured keep-alive timeout of 5 seconds. -/
def C9_state : Cucs_state :=
  { ucs_connections := [(1, C6_ctx)], ucs_id_counter := 12,
    keep_alive_timeout := 5 }

/-! ## Theorems

First a small kit of bitwise facts about the varint arithmetic, then the
codec claims, then the state-machine claims. -/

/-- Or-ing a shifted value into an accumulator whose bits all lie below the
shift is plain addition. -/
theorem lor_shiftLeft_eq_add (a b s : Nat) (h : a < 2 ^ s) :
    a ||| (b <<< s) = a + b * 2 ^ s := by
  apply Nat.eq_of_testBit_eq
  intro j
  rw [Nat.testBit_lor, Nat.testBit_shiftLeft]
  rcases Nat.lt_or_ge j s with hj | hj
  · have h1 : Nat.testBit (a + b * 2 ^ s) j = Nat.testBit a j := by
      rw [Nat.add_comm, Nat.mul_comm]
      rw [Nat.testBit_mul_pow_two_add b h j]
      simp [hj]
    have h2 : ¬ s ≤ j := Nat.not_le.mpr hj
    simp [h1, h2]
  · have h1 : Nat.testBit (a + b * 2 ^ s) j = Nat.testBit b (j - s) := by
      rw [Nat.add_comm, Nat.mul_comm]
      rw [Nat.testBit_mul_pow_two_add b h j]
      simp [Nat.not_lt.mpr hj]
    have h2 : Nat.testBit a j = false :=
      Nat.testBit_lt_two_pow
        (lt_of_lt_of_le h (Nat.pow_le_pow_right (by norm_num) hj))
    simp [h1, h2, hj]

/-- Masking with 0x7f is reduction modulo 128. -/
theorem and_127_eq_mod (n : Nat) : n &&& 127 = n % 128 := by
  have := Nat.and_pow_two_sub_one_eq_mod n 7
  norm_num at this
  exact this

/-- A value below 128 has no 0x80 bit. -/
theorem and_128_eq_zero {n : Nat} (h : n < 128) : n &&& 128 = 0 := by
  have h7 : Nat.testBit n 7 = false := Nat.testBit_lt_two_pow (by norm_num [h])
  have := Nat.and_two_pow n 7
  norm_num [h7] at this
  exact this

/-- Setting the 0x80 continuation bit on a 7-bit value is addition of 128. -/
theorem or_128_eq_add {r : Nat} (h : r < 128) : r ||| 128 = r + 128 := by
  have h2 : (1 : Nat) <<< 7 = 128 := by decide
  have h3 := lor_shiftLeft_eq_add r 1 7 (by omega)
  rw [h2] at h3
  rw [h3]
  norm_num

/-- A 7-bit value with the continuation bit set has the 0x80 bit. -/
theorem add_128_and_128_ne_zero {r : Nat} (h : r < 128) :
    (r + 128) &&& 128 ≠ 0 := by
  have h7 : Nat.testBit (r + 128) 7 = true := by
    rw [Nat.testBit_to_div_mod]
    have hd : (r + 128) / 2 ^ 7 = 1 := by norm_num; omega
    rw [hd]
    decide
  have := Nat.and_two_pow (r + 128) 7
  norm_num [h7] at this
  omega

/-- A continuation header byte (low bits n % 128, 0x80 bit set) accumulates
the low bits at the current shift and advances the shift by 7. -/
theorem decode_header_byte_cont (cap ms s t n : Nat) (hms : ms < 2 ^ s)
    (hcap : ms + n % 128 * 2 ^ s ≤ cap) :
    decode_header_byte cap ⟨true, ms, s, t⟩ (n % 128 + 128) =
      some ⟨true, ms + n % 128 * 2 ^ s, s + 7, t⟩ := by
  unfold decode_header_byte
  have hb1 : (n % 128 + 128) &&& 127 = n % 128 := by
    rw [and_127_eq_mod, Nat.add_mod_right, Nat.mod_mod_of_dvd n (dvd_refl 128)]
  have hb2 : (n % 128 + 128) &&& 128 ≠ 0 :=
    add_128_and_128_ne_zero (Nat.mod_lt n (by norm_num))
  simp only [hb1, lor_shiftLeft_eq_add ms (n % 128) s hms]
  rw [if_neg (by omega), if_pos (by simpa using hb2)]

/-- A final header byte (value below 128) with a non-zero accumulated size
completes the header and enters the body state. -/
theorem decode_header_byte_last (cap ms s t n : Nat) (hms : ms < 2 ^ s)
    (hn : n < 128) (hpos : 0 < ms + n * 2 ^ s)
    (hcap : ms + n * 2 ^ s ≤ cap) :
    decode_header_byte cap ⟨true, ms, s, t⟩ n =
      some ⟨false, ms + n * 2 ^ s, 0, ms + n * 2 ^ s⟩ := by
  unfold decode_header_byte
  have hb1 : n &&& 127 = n := by
    rw [and_127_eq_mod, Nat.mod_eq_of_lt hn]
  have hb2 : n &&& 128 = 0 := and_128_eq_zero hn
  simp only [hb1, lor_shiftLeft_eq_add ms n s hms]
  rw [if_neg (by omega), if_neg (by simp [hb2]), if_pos (by omega)]

/-- Peeling one header byte off a run of the decoder. -/
theorem decode_run_cons (cap fuel : Nat) (d d1 : Frame_decoder) (b : Nat)
    (rest : List Nat) (hd : d.reading_header = true)
    (hb : decode_header_byte cap d b = some d1) :
    decode_run cap (fuel + 1) d (b :: rest) = decode_run cap fuel d1 rest := by
  simp [decode_run, hd, hb]

/-- decode_run does not depend on the fuel as long as the fuel covers the
input length (every read consumes at least one byte); stated with an
auxiliary bound len to drive strong induction on the input length. -/
theorem decode_run_fuel_congr (cap : Nat) :
    ∀ (len : Nat) (input : List Nat) (f1 f2 : Nat) (d : Frame_decoder),
      input.length ≤ len → input.length ≤ f1 → input.length ≤ f2 →
      decode_run cap f1 d input = decode_run cap f2 d input := by
  intro len
  induction len with
  | zero =>
    intro input f1 f2 d hlen _ _
    have : input = [] := List.eq_nil_of_length_eq_zero (by omega)
    subst this
    cases f1 <;> cases f2 <;> rfl
  | succ len ih =>
    intro input f1 f2 d hlen h1 h2
    match input with
    | [] => cases f1 <;> cases f2 <;> rfl
    | b :: rest =>
      simp only [List.length_cons] at hlen h1 h2
      match f1, f2 with
      | f1 + 1, f2 + 1 =>
        unfold decode_run
        by_cases hd : d.reading_header
        · rw [if_pos hd, if_pos hd]
          match decode_header_byte cap d b with
          | none => rfl
          | some d1 => exact ih rest f1 f2 d1 (by omega) (by omega) (by omega)
        · rw [if_neg hd, if_neg hd]
          by_cases hg : 0 < d.to_read ∧ d.to_read ≤ rest.length + 1
          · rw [if_pos hg, if_pos hg]
            have hdl : (List.drop d.to_read (b :: rest)).length ≤ len := by
              rw [List.length_drop]
              simp only [List.length_cons]
              omega
            rw [ih (List.drop d.to_read (b :: rest)) f1 f2 init_decoder hdl
              (by
                have := List.length_drop d.to_read (b :: rest)
                simp only [List.length_cons] at this
                omega)
              (by
                have := List.length_drop d.to_read (b :: rest)
                simp only [List.length_cons] at this
                omega)]
          · rw [if_neg hg, if_neg hg]

/-- Feeding a varint through the header state machine: starting from a header
state whose accumulator ms holds only bits below the current shift s, the
varint bytes of n accumulate n shifted by s and leave the decoder in the body
state expecting the accumulated size. -/
theorem decode_run_varint (cap : Nat) :
    ∀ (fuel n ms s : Nat) (rest : List Nat) (gas : Nat), n ≤ fuel →
      ms < 2 ^ s → 0 < ms + n * 2 ^ s → ms + n * 2 ^ s ≤ cap →
      (varint_run fuel n).length + rest.length ≤ gas →
      decode_run cap gas ⟨true, ms, s, 1⟩ (varint_run fuel n ++ rest) =
        decode_run cap rest.length ⟨false, ms + n * 2 ^ s, 0, ms + n * 2 ^ s⟩
          rest := by
  intro fuel
  induction fuel with
  | zero =>
    intro n ms s rest gas hn hms hpos hcap hgas
    have hn0 : n = 0 := Nat.le_zero.mp hn
    subst hn0
    have hv : varint_run 0 0 = [0] := rfl
    rw [hv] at hgas ⊢
    simp only [List.length_cons, List.length_nil, List.cons_append,
      List.nil_append] at hgas ⊢
    obtain ⟨g, rfl⟩ : ∃ g, gas = g + 1 := ⟨gas - 1, by omega⟩
    rw [decode_run_cons cap g _ _ 0 rest rfl
      (decode_header_byte_last cap ms s 1 0 hms (by norm_num) (by omega) (by omega))]
    exact decode_run_fuel_congr cap rest.length rest g rest.length _ (le_refl _)
      (by omega) (le_refl _)
  | succ fuel ih =>
    intro n ms s rest gas hn hms hpos hcap hgas
    by_cases h0 : n >>> 7 = 0
    · have hn128 : n < 128 := by
        have := Nat.shiftRight_eq_div_pow n 7
        norm_num at this
        omega
      have hv : varint_run (fuel + 1) n = [n] := by
        simp only [varint_run, h0, if_pos]
        rw [and_127_eq_mod, Nat.mod_eq_of_lt hn128]
      rw [hv] at hgas ⊢
      simp only [List.length_cons, List.length_nil, List.cons_append,
        List.nil_append] at hgas ⊢
      obtain ⟨g, rfl⟩ : ∃ g, gas = g + 1 := ⟨gas - 1, by omega⟩
      rw [decode_run_cons cap g _ _ n rest rfl
        (decode_header_byte_last cap ms s 1 n hms hn128 hpos hcap)]
      exact decode_run_fuel_congr cap rest.length rest g rest.length _ (le_refl _)
        (by omega) (le_refl _)
    · have hdiv : n >>> 7 = n / 128 := by
        have := Nat.shiftRight_eq_div_pow n 7
        norm_num at this
        exact this
      have hn128 : 128 ≤ n := by
        rcases Nat.lt_or_ge n 128 with h | h
        · exact absurd (by rw [hdiv]; omega) h0
        · exact h
      have hv : varint_run (fuel + 1) n =
          (n % 128 + 128) :: varint_run fuel (n >>> 7) := by
        simp only [varint_run, h0, if_false]
        rw [and_127_eq_mod, or_128_eq_add (Nat.mod_lt n (by norm_num))]
      rw [hv] at hgas ⊢
      simp only [List.length_cons, List.cons_append] at hgas ⊢
      obtain ⟨g, rfl⟩ : ∃ g, gas = g + 1 := ⟨gas - 1, by omega⟩
      have hcap1 : ms + n % 128 * 2 ^ s ≤ cap := by
        have hle : n % 128 ≤ n := Nat.mod_le n 128
        have : n % 128 * 2 ^ s ≤ n * 2 ^ s := Nat.mul_le_mul_right _ hle
        omega
      rw [decode_run_cons cap g _ _ (n % 128 + 128) _ rfl
        (decode_header_byte_cont cap ms s 1 n hms hcap1)]
      have hid : ms + n % 128 * 2 ^ s + n >>> 7 * 2 ^ (s + 7) = ms + n * 2 ^ s := by
        rw [hdiv, pow_add]
        have hmd : n % 128 + 128 * (n / 128) = n := Nat.mod_add_div n 128
        have : n % 128 * 2 ^ s + n / 128 * (2 ^ s * 2 ^ 7) = n * 2 ^ s := by
          calc n % 128 * 2 ^ s + n / 128 * (2 ^ s * 2 ^ 7)
              = (n % 128 + 128 * (n / 128)) * 2 ^ s := by ring
            _ = n * 2 ^ s := by rw [hmd]
        omega
      have hms1 : ms + n % 128 * 2 ^ s < 2 ^ (s + 7) := by
        have h1 : n % 128 < 128 := Nat.mod_lt n (by norm_num)
        have h2 : n % 128 * 2 ^ s ≤ 127 * 2 ^ s := Nat.mul_le_mul_right _ (by omega)
        have h3 : (2 : Nat) ^ (s + 7) = 2 ^ s * 128 := by rw [pow_add]; norm_num
        calc ms + n % 128 * 2 ^ s < 2 ^ s + 127 * 2 ^ s := by omega
          _ = 2 ^ s * 128 := by ring
          _ = 2 ^ (s + 7) := h3.symm
      have hrec : n >>> 7 ≤ fuel := by
        have : n >>> 7 < n := by rw [hdiv]; exact Nat.div_lt_self (by omega) (by norm_num)
        omega
      rw [ih (n >>> 7) (ms + n % 128 * 2 ^ s) (s + 7) rest g hrec hms1
        (by rw [hid]; exact hpos) (by rw [hid]; exact hcap) (by omega)]
      rw [hid]

/-- Reading a complete body: from the body state with to_read equal to the
length of the (non-empty) remaining input, the decoder delivers the input as
one frame and resets to the initial state. -/
theorem decode_run_body (cap : Nat) (payload : List Nat)
    (hne : payload ≠ []) :
    decode_run cap payload.length ⟨false, payload.length, 0, payload.length⟩
        payload = some (init_decoder, [payload]) := by
  match payload with
  | [] => exact absurd rfl hne
  | b :: tl =>
    have hdrop : List.drop (tl.length + 1) (b :: tl) = [] := by
      rw [show tl.length + 1 = (b :: tl).length from (List.length_cons b tl).symm]
      exact List.drop_length _
    have htake : List.take (tl.length + 1) (b :: tl) = b :: tl := by
      rw [show tl.length + 1 = (b :: tl).length from (List.length_cons b tl).symm]
      exact List.take_length _
    simp only [List.length_cons]
    simp [decode_run, hdrop, htake, init_decoder]

/-- C4, amended (the claim as stated fails for an empty serialization, see
C4_counterexample): for every message whose serialization is a non-empty
payload of length at most the cap (quantified; PROTO_MAX_MESSAGE_LEN in the
source), feeding the encoder output of Send_ucs_message — the varint of the
length followed by the payload — to the frame decoder under its
byte-at-a-time read discipline yields exactly one complete frame equal to the
payload and leaves the decoder in its initial header state (reading_header
true, message_size 0, shift 0, to_read 1). -/
theorem C4_frame_roundtrip (cap : Nat) (payload : List Nat)
    (h1 : payload ≠ []) (h2 : payload.length ≤ cap) :
    decode_stream cap init_decoder (frame_encode payload) =
      some (init_decoder, [payload]) := by
  unfold decode_stream frame_encode varint_bytes
  rw [List.length_append]
  have hpos : 0 < payload.length := List.length_pos.mpr h1
  have hrun := decode_run_varint cap payload.length payload.length 0 0 payload
    ((varint_run payload.length payload.length).length + payload.length)
    (le_refl _) (by norm_num) (by simpa using hpos) (by simpa using h2)
    (le_refl _)
  simp only [Nat.zero_add, pow_zero, Nat.mul_one] at hrun
  rw [show init_decoder = (⟨true, 0, 0, 1⟩ : Frame_decoder) from rfl]
  rw [hrun]
  exact decode_run_body cap payload h1

/-- C4 witness: the round-trip theorem applied to the concrete payload
[7, 8] with the concrete cap PROTO_MAX_MESSAGE_LEN. -/
theorem C4_frame_roundtrip_witness :
    ([7, 8] : List Nat) ≠ [] ∧ ([7, 8] : List Nat).length ≤ PROTO_MAX_MESSAGE_LEN ∧
      decode_stream PROTO_MAX_MESSAGE_LEN init_decoder (frame_encode [7, 8]) =
        some (init_decoder, [[7, 8]]) :=
  ⟨by decide, by decide,
    C4_frame_roundtrip PROTO_MAX_MESSAGE_LEN [7, 8] (by decide) (by decide)⟩

/-- C4 counterexample: a message with an empty serialization (length 0, which
satisfies 0 ≤ PROTO_MAX_MESSAGE_LEN) encodes to the single byte 0x00, which
the decoder deliberately swallows as a zero-length frame (Read_completed
lines 272-275), delivering no frame at all instead of the one frame the claim
requires. -/
theorem C4_counterexample :
    frame_encode [] = [0] ∧
      decode_stream PROTO_MAX_MESSAGE_LEN init_decoder (frame_encode []) =
        some (init_decoder, []) ∧
      decode_stream PROTO_MAX_MESSAGE_LEN init_decoder (frame_encode []) ≠
        some (init_decoder, [[]]) :=
  ⟨by decide, by decide, by decide⟩

/-- C8, amended (the claim as stated fails, see C8_counterexample): the
decoder enforces no bound at all on the number of varint header bytes; the
only header failure is the accumulated message_size exceeding the cap.  A run
of n continuation bytes 0x80 carries zero payload bits, so for every cap the
accumulated size stays 0 and the decoder remains in the header state with
shift grown to 7 n, never completing the header and never failing. -/
theorem C8_no_header_bound (cap n : Nat) :
    decode_stream cap init_decoder (List.replicate n 128) =
      some ({ reading_header := true, message_size := 0, shift := 7 * n,
              to_read := 1 }, []) := by
  unfold decode_stream
  rw [List.length_replicate]
  suffices h : ∀ (m s gas : Nat), m ≤ gas →
      decode_run cap gas ⟨true, 0, s, 1⟩ (List.replicate m 128) =
        some (⟨true, 0, s + 7 * m, 1⟩, []) by
    have := h n 0 n (le_refl n)
    simpa [init_decoder] using this
  intro m
  induction m with
  | zero =>
    intro s gas _
    match gas with
    | 0 => simp [decode_run]
    | gas + 1 => simp [decode_run]
  | succ m ih =>
    intro s gas hm
    obtain ⟨g, rfl⟩ : ∃ g, gas = g + 1 := ⟨gas - 1, by omega⟩
    rw [List.replicate_succ]
    have hb : decode_header_byte cap ⟨true, 0, s, 1⟩ 128 =
        some ⟨true, 0, s + 7, 1⟩ := by
      unfold decode_header_byte
      rw [show (128 : Nat) &&& 127 = 0 from rfl]
      simp
    rw [decode_run_cons cap g _ _ 128 _ rfl hb, ih (s + 7) g (by omega)]
    have : s + 7 + 7 * m = s + 7 * (m + 1) := by omega
    rw [this]

/-- C8 counterexample: ten 0x80 continuation bytes leave the decoder still in
the header state with shift = 70 and no failure, contradicting the claim that
within 10 header bytes the decoder either completes the header or fails the
connection; 70 is past the 64-bit width of the size_t message_size, so the
C++ shift expression is reached with an undefined shift count. -/
theorem C8_counterexample :
    decode_stream PROTO_MAX_MESSAGE_LEN init_decoder (List.replicate 10 128) =
      some ({ reading_header := true, message_size := 0, shift := 70,
              to_read := 1 }, []) := by
  decide

/-! ### Helper lemmas about the connection table -/

/-- Updating the entries under one key commutes with looking that key up. -/
theorem find?_map_update (L : List (Nat × Server_context)) (id : Nat)
    (f : Server_context → Server_context) :
    (L.map (fun c => if c.1 == id then (c.1, f c.2) else c)).find?
        (fun c => c.1 == id) =
      (L.find? (fun c => c.1 == id)).map (fun c => (c.1, f c.2)) := by
  rw [List.find?_map]
  have hpg : ((fun (c : Nat × Server_context) => c.1 == id) ∘
      (fun c => if c.1 == id then (c.1, f c.2) else c)) =
      (fun c => c.1 == id) := by
    funext c
    by_cases h : (c.1 == id) = true <;> simp [Function.comp, h]
  rw [hpg]
  cases hf : L.find? (fun c => c.1 == id) with
  | none => rfl
  | some c0 =>
    have hp := List.find?_some hf
    have hpe : c0.1 = id := by simpa using hp
    simp [hpe]

/-- Updating the entries under one key leaves lookups of other keys alone. -/
theorem find?_map_update_other (L : List (Nat × Server_context)) (id i : Nat)
    (f : Server_context → Server_context) (hne : i ≠ id) :
    (L.map (fun c => if c.1 == id then (c.1, f c.2) else c)).find?
        (fun c => c.1 == i) =
      L.find? (fun c => c.1 == i) := by
  rw [List.find?_map]
  have hpg : ((fun (c : Nat × Server_context) => c.1 == i) ∘
      (fun c => if c.1 == id then (c.1, f c.2) else c)) =
      (fun c => c.1 == i) := by
    funext c
    by_cases h : (c.1 == id) = true <;> simp [Function.comp, h]
  rw [hpg]
  cases hf : L.find? (fun c => c.1 == i) with
  | none => rfl
  | some c0 =>
    have hp := List.find?_some hf
    have hni : c0.1 ≠ id := by
      have : c0.1 = i := by simpa using hp
      simp [this, hne]
    simp [hni]

/-- get_conn after update_conn at the same key. -/
theorem get_conn_update_self (s : Cucs_state) (id : Nat)
    (f : Server_context → Server_context) :
    get_conn (update_conn s id f) id = (get_conn s id).map f := by
  unfold get_conn update_conn
  simp only [find?_map_update]
  cases s.ucs_connections.find? (fun c => c.1 == id) <;> rfl

/-- get_conn after update_conn at a different key. -/
theorem get_conn_update_other (s : Cucs_state) (id i : Nat)
    (f : Server_context → Server_context) (hne : i ≠ id) :
    get_conn (update_conn s id f) i = get_conn s i := by
  unfold get_conn update_conn
  simp only [find?_map_update_other _ _ _ _ hne]

/-- The session fields of a connection, that is everything except the
registration bookkeeping: peer id, primary flag, address, compatibility and
last message time. -/
def conn_session (c : Server_context) :
    Option Nat × Bool × Socket_address × Bool × Int :=
  (c.ucs_id, c.primary, c.address, c.is_compatible, c.last_message_time)

/-- An update that does not touch the session fields preserves every
connection's session fields. -/
theorem conn_session_update (s : Cucs_state) (sid : Nat)
    (f : Server_context → Server_context) (i : Nat)
    (hf : ∀ c, conn_session (f c) = conn_session c) :
    (get_conn (update_conn s sid f) i).map conn_session =
      (get_conn s i).map conn_session := by
  by_cases h : i = sid
  · subst h
    rw [get_conn_update_self, Option.map_map]
    cases get_conn s i with
    | none => rfl
    | some c => simp [Function.comp, hf]
  · rw [get_conn_update_other _ _ _ _ h]

/-- send_finish only touches the id counter, never the connection table. -/
theorem get_conn_send_finish (s : Cucs_state) (i : Nat) (m : Vsm_message)
    (j : Nat) : get_conn (send_finish s i m).1 j = get_conn s j := by
  unfold send_finish
  split <;> rfl

/-- The send path never changes any connection's session fields (it only
touches pending_registrations, registered_devices and the id counter). -/
theorem send_body_preserves_session (s : Cucs_state) (sid : Nat)
    (ctx : Server_context) (m : Vsm_message) (i : Nat) :
    (get_conn (Send_ucs_message_body s sid ctx m).1 i).map conn_session =
      (get_conn s i).map conn_session := by
  unfold Send_ucs_message_body
  split_ifs
  all_goals try simp only [get_conn_send_finish]
  all_goals first
    | rfl
    | exact conn_session_update _ _ _ _ (fun c => rfl)

/-- Send_ucs_message never changes any connection's session fields. -/
theorem send_preserves_session (s : Cucs_state) (sid : Nat) (m : Vsm_message)
    (i : Nat) :
    (get_conn (Send_ucs_message s sid m).1 i).map conn_session =
      (get_conn s i).map conn_session := by
  cases hc : get_conn s sid with
  | none => simp [Send_ucs_message, hc]
  | some ctx =>
    cases hu : ctx.ucs_id with
    | none =>
      cases hr : m.register_peer with
      | none => simp [Send_ucs_message, hc, hu, hr]
      | some rp =>
        simp only [Send_ucs_message, hc, hu, hr]
        exact send_body_preserves_session s sid ctx _ i
    | some u =>
      simp only [Send_ucs_message, hc, hu]
      exact send_body_preserves_session s sid ctx m i

/-- Replaying the vehicle catalogue never changes any connection's session
fields. -/
theorem send_vehicle_registrations_preserves_session (s : Cucs_state)
    (sid : Nat) (i : Nat) :
    (get_conn (Send_vehicle_registrations s sid).1 i).map conn_session =
      (get_conn s i).map conn_session := by
  unfold Send_vehicle_registrations
  suffices h : ∀ (vs : List (Nat × Vehicle_context)) (acc : Cucs_state × List Effect),
      (get_conn (vs.foldl (fun acc v =>
        let r := Send_ucs_message acc.1 sid v.2.registration_message
        (r.1, acc.2 ++ r.2.2)) acc).1 i).map conn_session =
      (get_conn acc.1 i).map conn_session by
    exact h s.vehicles (s, [])
  intro vs
  induction vs with
  | nil => intro acc; rfl
  | cons v vs ih =>
    intro acc
    rw [List.foldl_cons, ih]
    exact send_preserves_session acc.1 sid v.2.registration_message i

/-- send_finish never changes the device_id of the message it sends. -/
theorem send_finish_msg_device_id (s : Cucs_state) (i : Nat)
    (m : Vsm_message) : (send_finish s i m).2.1.device_id = m.device_id := by
  unfold send_finish
  split <;> rfl

/-- The send path body never changes the device_id of the message. -/
theorem send_body_msg_device_id (s : Cucs_state) (i : Nat)
    (ctx : Server_context) (m : Vsm_message) :
    (Send_ucs_message_body s i ctx m).2.1.device_id = m.device_id := by
  unfold Send_ucs_message_body
  split_ifs <;> simp [send_finish_msg_device_id]

/-! ### C10 -/

/-- C10: Unregister_device with a device id that is not in the vehicles table
raises Invalid_param_exception while processing (On_unregister_vehicle lines
475-477); the handler aborts before touching the vehicle table or
broadcasting anything, which the model expresses by returning an error and
no new state or effects. -/
theorem C10_unregister_unknown_throws (s : Cucs_state) (device_id : Nat)
    (h : (s.vehicles.find? (fun v => v.1 == device_id)).isNone) :
    On_unregister_vehicle s device_id =
      Except.error "Invalid_param_exception: Unregister unknown device id" := by
  unfold On_unregister_vehicle
  rw [if_pos h]

/-- C10 witness: unregistering device 3 in the initial state (empty vehicle
table) raises the exception. -/
theorem C10_unregister_unknown_throws_witness :
    ((init_state.vehicles.find? (fun v => v.1 == 3)).isNone = true) ∧
      On_unregister_vehicle init_state 3 =
        Except.error "Invalid_param_exception: Unregister unknown device id" :=
  ⟨by decide, C10_unregister_unknown_throws init_state 3 (by decide)⟩

/-! ### C7 -/

/-- C7: while a connection's peer id is unset, every inbound message other
than register_peer is logged (log_warn) and dropped with the processor state
completely unchanged (in particular last_message_time and every other field
of the connection); every outbound send other than a register_peer message is
refused with an error log and nothing written or changed; and an outbound
register_peer in this state goes out with its device_id forced to 0. -/
theorem C7_unregistered_peer_gating (s : Cucs_state) (sid : Nat)
    (ctx : Server_context) (msg : Vsm_message) (now : Int)
    (hc : get_conn s sid = some ctx) (hu : ctx.ucs_id = none) :
    (msg.register_peer = none →
        Process_vsm_message s sid msg now = (s, [Effect.log_warn 0]) ∧
        Send_ucs_message s sid msg = (s, msg, [Effect.log_err 0])) ∧
    (msg.register_peer ≠ none →
        (Send_ucs_message s sid msg).2.1.device_id = 0) := by
  constructor
  · intro hr
    constructor
    · simp [Process_vsm_message, hc, hu, hr]
    · simp [Send_ucs_message, hc, hu, hr]
  · intro hr
    cases hr2 : msg.register_peer with
    | none => exact absurd hr2 hr
    | some rp =>
      simp only [Send_ucs_message, hc, hu, hr2]
      rw [send_body_msg_device_id]

/-! ### C6 -/

/-- send_finish on a message that already carries a message id writes it
unchanged. -/
theorem send_finish_has_id (s : Cucs_state) (i : Nat) (m : Vsm_message)
    (h : m.message_id.isNone = false) :
    send_finish s i m = (s, m, [Effect.stream_write i m]) := by
  unfold send_finish
  rw [if_neg (by simp [h])]

/-- send_finish on a message that does not ask for a response writes it
unchanged. -/
theorem send_finish_no_response (s : Cucs_state) (i : Nat) (m : Vsm_message)
    (h : ¬m.response_required = some true) :
    send_finish s i m = (s, m, [Effect.stream_write i m]) := by
  unfold send_finish
  rw [if_neg (by simp [h])]

/-- send_finish allocates a fresh message id when a response is required but
no id is present. -/
theorem send_finish_alloc (s : Cucs_state) (i : Nat) (m : Vsm_message)
    (h1 : m.message_id = none) (h2 : m.response_required = some true) :
    send_finish s i m =
      ({ s with ucs_id_counter := s.ucs_id_counter + 1 },
        { m with message_id := some s.ucs_id_counter },
        [Effect.stream_write i { m with message_id := some s.ucs_id_counter }]) := by
  unfold send_finish
  rw [if_pos (by simp [h1, h2])]
  rfl

/-- send_finish always emits exactly one write, of the possibly id-completed
message. -/
theorem send_finish_write (s : Cucs_state) (i : Nat) (m : Vsm_message) :
    ∃ m2, (send_finish s i m).2.2 = [Effect.stream_write i m2] := by
  unfold send_finish
  split
  · exact ⟨_, rfl⟩
  · exact ⟨_, rfl⟩

/-- An element is in the set after set_insert. -/
theorem mem_set_insert_self (l : List Nat) (x : Nat) : x ∈ set_insert l x := by
  unfold set_insert
  split
  · assumption
  · simp

/-- The erase-and-break loop removes exactly one matching entry when one
exists. -/
theorem countP_pending_erase_first (l : List (Nat × Nat)) (d : Nat)
    (h : l.any (fun e => e.2 == d) = true) :
    (pending_erase_first_value l d).countP (fun e => e.2 == d) =
      l.countP (fun e => e.2 == d) - 1 := by
  induction l with
  | nil => simp at h
  | cons e l ih =>
    by_cases he : (e.2 == d) = true
    · simp [pending_erase_first_value, he, List.countP_cons]
    · have hl : l.any (fun e => e.2 == d) = true := by
        simp only [List.any_cons, he, Bool.false_or] at h
        exact h
      simp [pending_erase_first_value, he, List.countP_cons, ih hl]

/-- C6, amended (the claim as stated fails, see C6_counterexample): on a
per-connection send with the peer id set and is_compatible true: a message
with non-zero device_id that is not register_device is transmitted only if
its device is in the connection's registered_devices and is silently dropped
otherwise; a register_device message is always transmitted with a freshly
allocated message id, recording message_id to device_id in
pending_registrations; and an unregister_device for a registered device is
transmitted, removes the device from registered_devices and removes AT MOST
ONE pending_registrations entry mapping to it (the first in map order), not
every such entry. -/
theorem C6_send_device_rules (s : Cucs_state) (sid : Nat)
    (ctx : Server_context) (msg : Vsm_message) (u : Nat)
    (hc : get_conn s sid = some ctx) (hu : ctx.ucs_id = some u)
    (hcomp : ctx.is_compatible = true) :
    (msg.register_device = true →
        (Send_ucs_message s sid msg).2.2 =
            [Effect.stream_write sid (Send_ucs_message s sid msg).2.1] ∧
        (Send_ucs_message s sid msg).2.1 =
            { msg with response_required := some true,
                       message_id := some s.ucs_id_counter } ∧
        (get_conn (Send_ucs_message s sid msg).1 sid).map
            (fun c => c.pending_registrations) =
          some (pending_insert ctx.pending_registrations s.ucs_id_counter
            msg.device_id)) ∧
    (msg.register_device = false → msg.device_id ≠ 0 →
        msg.device_id ∉ ctx.registered_devices →
        Send_ucs_message s sid msg = (s, msg, [])) ∧
    (msg.register_device = false → msg.device_id ≠ 0 →
        msg.device_id ∈ ctx.registered_devices → msg.unregister_device = true →
        (∃ m, (Send_ucs_message s sid msg).2.2 = [Effect.stream_write sid m]) ∧
        (get_conn (Send_ucs_message s sid msg).1 sid).map
            (fun c => c.registered_devices) =
          some (ctx.registered_devices.erase msg.device_id) ∧
        (get_conn (Send_ucs_message s sid msg).1 sid).map
            (fun c => c.pending_registrations) =
          some (pending_erase_first_value ctx.pending_registrations
            msg.device_id) ∧
        (ctx.pending_registrations.any (fun e => e.2 == msg.device_id) = true →
          (pending_erase_first_value ctx.pending_registrations
              msg.device_id).countP (fun e => e.2 == msg.device_id) =
            ctx.pending_registrations.countP
              (fun e => e.2 == msg.device_id) - 1)) := by
  refine ⟨?_, ?_, ?_⟩
  · intro hreg
    simp only [Send_ucs_message, hc, hu]
    unfold Send_ucs_message_body
    rw [if_neg (by simp [hcomp]), if_pos hreg]
    simp only [Get_next_id]
    rw [send_finish_has_id _ _ _ (by simp)]
    refine ⟨rfl, rfl, ?_⟩
    rw [get_conn_update_self]
    have hc2 : get_conn { s with ucs_id_counter := s.ucs_id_counter + 1 } sid =
        some ctx := hc
    rw [hc2]
    rfl
  · intro hreg hdev hmem
    simp only [Send_ucs_message, hc, hu]
    unfold Send_ucs_message_body
    rw [if_neg (by simp [hcomp]), if_neg (by simp [hreg]), if_pos hdev,
      if_pos hmem]
  · intro hreg hdev hmem hunreg
    simp only [Send_ucs_message, hc, hu]
    unfold Send_ucs_message_body
    rw [if_neg (by simp [hcomp]), if_neg (by simp [hreg]), if_pos hdev,
      if_neg (by simp [hmem]), if_pos hunreg]
    refine ⟨send_finish_write _ _ _, ?_, ?_, ?_⟩
    · simp [get_conn_send_finish, get_conn_update_self, hc]
    · simp [get_conn_send_finish, get_conn_update_self, hc]
    · intro hany
      exact countP_pending_erase_first _ _ hany

/-- C7 witness: the gating theorem applied on the concrete un-handshaken
connection C7_state for both an inbound/outbound non-handshake message (the
ping) and an outbound register_peer. -/
theorem C7_unregistered_peer_gating_witness :
    get_conn C7_state 2 = some C7_ctx ∧ C7_ctx.ucs_id = none ∧
      (Process_vsm_message C7_state 2 ping_message 5 =
          (C7_state, [Effect.log_warn 0]) ∧
        Send_ucs_message C7_state 2 ping_message =
          (C7_state, ping_message, [Effect.log_err 0])) ∧
      (Send_ucs_message C7_state 2 (mk_register_peer 9)).2.1.device_id = 0 :=
  ⟨by decide, by decide,
    (C7_unregistered_peer_gating C7_state 2 C7_ctx ping_message 5
      (by decide) (by decide)).1 (by decide),
    (C7_unregistered_peer_gating C7_state 2 C7_ctx (mk_register_peer 9) 5
      (by decide) (by decide)).2 (by decide)⟩

/-- C6 witness: the send rules applied on the concrete connection C6_pre to
the concrete unregister notice for the registered device 7 (which has two
pending registration entries). -/
theorem C6_send_device_rules_witness :
    get_conn C6_pre 1 = some C6_ctx ∧ C6_ctx.ucs_id = some 5 ∧
      C6_ctx.is_compatible = true ∧
      (C6_unregister_msg.register_device = false →
        C6_unregister_msg.device_id ≠ 0 →
        C6_unregister_msg.device_id ∈ C6_ctx.registered_devices →
        C6_unregister_msg.unregister_device = true →
        (∃ m, (Send_ucs_message C6_pre 1 C6_unregister_msg).2.2 =
          [Effect.stream_write 1 m]) ∧
        (get_conn (Send_ucs_message C6_pre 1 C6_unregister_msg).1 1).map
            (fun c => c.registered_devices) =
          some (C6_ctx.registered_devices.erase C6_unregister_msg.device_id) ∧
        (get_conn (Send_ucs_message C6_pre 1 C6_unregister_msg).1 1).map
            (fun c => c.pending_registrations) =
          some (pending_erase_first_value C6_ctx.pending_registrations
            C6_unregister_msg.device_id) ∧
        (C6_ctx.pending_registrations.any
            (fun e => e.2 == C6_unregister_msg.device_id) = true →
          (pending_erase_first_value C6_ctx.pending_registrations
              C6_unregister_msg.device_id).countP
              (fun e => e.2 == C6_unregister_msg.device_id) =
            C6_ctx.pending_registrations.countP
              (fun e => e.2 == C6_unregister_msg.device_id) - 1)) :=
  ⟨by decide, by decide, by decide,
    (C6_send_device_rules C6_pre 1 C6_ctx C6_unregister_msg 5
      (by decide) (by decide) (by decide)).2.2⟩

/-- C6 counterexample: on the connection C6_pre (device 7 registered, two
pending entries (10, 7) and (11, 7) both mapping to device 7) the unregister
notice is transmitted but the send path removes only the first pending entry:
(11, 7) survives, contradicting removal from every pending_registrations
entry mapping to the device. -/
theorem C6_counterexample :
    (get_conn (Send_ucs_message C6_pre 1 C6_unregister_msg).1 1).map
        (fun c => c.pending_registrations) = some [(11, 7)] ∧
      (Send_ucs_message C6_pre 1 C6_unregister_msg).2.2 =
        [Effect.stream_write 1 C6_unregister_msg] :=
  ⟨by decide, by decide⟩

/-! ### C1 and C2 -/

/-- C1 (code bug): the exactly-one-primary invariant fails in a reachable
state.  Running the concrete event trace C1_trace from the initial state —
three loopback connections handshake as peer 5 (each handshake moves primary
to the newcomer), then the current primary connection (stream 3) suffers a
read error — leaves the two surviving connections of peer 5 BOTH marked
primary, because the loopback failover loop of Close_ucs_stream (lines
663-673) has no break and promotes every surviving loopback sibling. -/
theorem C1_failover_two_primaries :
    ((run init_state C1_trace).ucs_connections.filter
        (fun c => c.2.ucs_id == some 5 && c.2.primary)).length = 2 ∧
      ((run init_state C1_trace).ucs_connections.filter
        (fun c => c.2.ucs_id == some 5)).length = 2 := by
  constructor
  · decide
  · decide

/-- C2 (code bug): closing the non-loopback primary connection (stream 3)
while the two surviving siblings of peer 5 both have loopback addresses
promotes BOTH of them to primary — the failover procedure does not promote
exactly one surviving connection. -/
theorem C2_close_promotes_two_loopbacks :
    ((Close_ucs_stream C2_pre 3).1.ucs_connections.filter
        (fun c => c.2.primary)).length = 2 ∧
      (get_conn (Close_ucs_stream C2_pre 3).1 1).map (fun c => c.primary) =
        some true ∧
      (get_conn (Close_ucs_stream C2_pre 3).1 2).map (fun c => c.primary) =
        some true := by
  refine ⟨by decide, by decide, by decide⟩

/-! ### C3 counterexample -/

/-- C3 counterexample: in C3_pre the existing primary for peer 5 (stream 1)
has a NON-loopback address and the newly handshaking connection (stream 2)
also has a non-loopback address; the claim says the new connection stays
non-primary, but the code (condition at lines 357-358: switch unless the old
primary is loopback and the newcomer is not) demotes stream 1 and promotes
stream 2. -/
theorem C3_counterexample :
    (get_conn (Process_vsm_message C3_pre 2 (mk_register_peer 5) 0).1 2).map
        (fun c => c.primary) = some true ∧
      (get_conn (Process_vsm_message C3_pre 2 (mk_register_peer 5) 0).1 1).map
        (fun c => c.primary) = some false :=
  ⟨by decide, by decide⟩

/-! ### C9 -/

/-- A timer action produced by a connection entry addresses that entry's
stream. -/
theorem On_timer_action_sid (kat now : Int) (c : Nat × Server_context)
    (a : Timer_action) (h : On_timer_action kat now c = some a) :
    timer_action_sid a = c.1 := by
  cases hu : c.2.ucs_id with
  | some v =>
    simp only [On_timer_action, hu] at h
    split_ifs at h <;>
      · injection h with h2
        subst h2
        rfl
  | none =>
    simp only [On_timer_action, hu] at h
    split_ifs at h
    injection h with h2
    subst h2
    rfl

/-- Entries whose key is absent from a connection list contribute no timer
action addressing that key. -/
theorem timer_actions_no_sid (kat now : Int) (sid : Nat)
    (L : List (Nat × Server_context)) (hns : sid ∉ L.map Prod.fst) :
    ∀ a ∈ L.filterMap (On_timer_action kat now), timer_action_sid a ≠ sid := by
  intro a ha hcontra
  obtain ⟨c, hcL, hfc⟩ := List.mem_filterMap.mp ha
  have hsa := On_timer_action_sid kat now c a hfc
  exact hns (List.mem_map.mpr ⟨c, hcL, by rw [← hsa, hcontra]⟩)

/-- On a connection list with unique stream ids, membership and multiplicity
of the timer actions addressing one stream are decided by that stream's own
entry. -/
theorem timer_actions_lookup (kat now : Int) :
    ∀ (L : List (Nat × Server_context)) (sid : Nat) (ctx : Server_context),
      (L.map Prod.fst).Nodup → (sid, ctx) ∈ L →
      ((Timer_action.close sid ∈ L.filterMap (On_timer_action kat now)) ↔
        On_timer_action kat now (sid, ctx) = some (Timer_action.close sid)) ∧
      ((L.filterMap (On_timer_action kat now)).count
          (Timer_action.send sid ping_message) =
        if On_timer_action kat now (sid, ctx) =
            some (Timer_action.send sid ping_message) then 1 else 0) ∧
      ((Timer_action.send sid ping_message ∈
          L.filterMap (On_timer_action kat now)) ↔
        On_timer_action kat now (sid, ctx) =
          some (Timer_action.send sid ping_message)) := by
  intro L
  induction L with
  | nil =>
    intro sid ctx _ hmem
    cases hmem
  | cons e L ih =>
    intro sid ctx hnd hmem
    rw [List.map_cons] at hnd
    have hnd2 := List.nodup_cons.mp hnd
    rcases List.mem_cons.mp hmem with he | htl
    · have hesid : e = (sid, ctx) := he.symm
      subst hesid
      have hns : sid ∉ L.map Prod.fst := hnd2.1
      have hnone := timer_actions_no_sid kat now sid L hns
      have hclose_tl : Timer_action.close sid ∉
          L.filterMap (On_timer_action kat now) := fun hmem2 => hnone _ hmem2 rfl
      have hsend_tl : Timer_action.send sid ping_message ∉
          L.filterMap (On_timer_action kat now) := fun hmem2 => hnone _ hmem2 rfl
      have hcount_tl : (L.filterMap (On_timer_action kat now)).count
          (Timer_action.send sid ping_message) = 0 :=
        List.count_eq_zero.mpr hsend_tl
      cases hfa : On_timer_action kat now (sid, ctx) with
      | none =>
        rw [List.filterMap_cons_none hfa]
        simp [hclose_tl, hcount_tl, hsend_tl]
      | some a =>
        rw [List.filterMap_cons_some hfa]
        refine ⟨?_, ?_, ?_⟩
        · simp only [List.mem_cons, Option.some.injEq]
          constructor
          · intro h
            rcases h with h | h
            · exact h.symm
            · exact absurd h hclose_tl
          · intro h
            exact Or.inl h.symm
        · rw [List.count_cons, hcount_tl]
          by_cases hae : a = Timer_action.send sid ping_message
          · simp [hae]
          · simp [hae, Ne.symm hae]
        · simp only [List.mem_cons, Option.some.injEq]
          constructor
          · intro h
            rcases h with h | h
            · exact h.symm
            · exact absurd h hsend_tl
          · intro h
            exact Or.inl h.symm
    · have hsidL : sid ∈ L.map Prod.fst :=
        List.mem_map.mpr ⟨(sid, ctx), htl, rfl⟩
      have hk : e.1 ≠ sid := fun hcontra => hnd2.1 (hcontra ▸ hsidL)
      have ihres := ih sid ctx hnd2.2 htl
      cases hfa : On_timer_action kat now e with
      | none =>
        rw [List.filterMap_cons_none hfa]
        exact ihres
      | some a =>
        have hsa := On_timer_action_sid kat now e a hfa
        have hne_close : Timer_action.close sid ≠ a := by
          intro hcontra
          rw [← hcontra] at hsa
          exact hk (by simpa [timer_action_sid] using hsa.symm)
        have hne_send : Timer_action.send sid ping_message ≠ a := by
          intro hcontra
          rw [← hcontra] at hsa
          exact hk (by simpa [timer_action_sid] using hsa.symm)
        rw [List.filterMap_cons_some hfa]
        refine ⟨?_, ?_, ?_⟩
        · rw [← ihres.1]
          simp [List.mem_cons, hne_close]
        · rw [List.count_cons, ihres.2.1]
          simp [Ne.symm hne_send]
        · rw [← ihres.2.2]
          simp [List.mem_cons, hne_send]
/-- C9: on a timer tick, a handshaken connection with a configured
keep_alive_timeout > 0 is closed exactly when now - last_message_time exceeds
the timeout, and otherwise receives exactly one ping (device_id 0,
response_required true, no message id yet — the send path on a compatible
handshaken connection then allocates the fresh message id
s1.ucs_id_counter); an un-handshaken connection is closed exactly when
now - last_message_time exceeds REGISTER_PEER_TIMEOUT and is never pinged;
and the tick returns true so the timer reschedules. -/
theorem C9_timer_tick (s : Cucs_state) (now : Int) (sid : Nat)
    (ctx : Server_context)
    (hnd : (s.ucs_connections.map Prod.fst).Nodup)
    (hmem : (sid, ctx) ∈ s.ucs_connections) :
    (On_timer s now).2 = true ∧
    (∀ u, ctx.ucs_id = some u → 0 < s.keep_alive_timeout →
      ((Timer_action.close sid ∈ (On_timer s now).1) ↔
          now - ctx.last_message_time > s.keep_alive_timeout) ∧
      (¬(now - ctx.last_message_time > s.keep_alive_timeout) →
        (On_timer s now).1.count (Timer_action.send sid ping_message) = 1 ∧
        Timer_action.close sid ∉ (On_timer s now).1)) ∧
    (ctx.ucs_id = none →
      ((Timer_action.close sid ∈ (On_timer s now).1) ↔
          now - ctx.last_message_time > REGISTER_PEER_TIMEOUT) ∧
      Timer_action.send sid ping_message ∉ (On_timer s now).1) ∧
    (ping_message.device_id = 0 ∧ ping_message.response_required = some true ∧
      ping_message.message_id = none) ∧
    (∀ (s1 : Cucs_state) (ctx1 : Server_context) (u : Nat),
      get_conn s1 sid = some ctx1 → ctx1.ucs_id = some u →
      ctx1.is_compatible = true →
      (Send_ucs_message s1 sid ping_message).2.1.message_id =
          some s1.ucs_id_counter ∧
      (Send_ucs_message s1 sid ping_message).1.ucs_id_counter =
        s1.ucs_id_counter + 1) := by
  have spec := timer_actions_lookup s.keep_alive_timeout now s.ucs_connections
    sid ctx hnd hmem
  refine ⟨rfl, ?_, ?_, ⟨rfl, rfl, rfl⟩, ?_⟩
  · intro u hu hkat
    have heval_close :
        (On_timer_action s.keep_alive_timeout now (sid, ctx) =
          some (Timer_action.close sid)) ↔
        ctx.last_message_time + s.keep_alive_timeout < now := by
      simp only [On_timer_action, hu]
      rw [if_pos (by omega : ¬s.keep_alive_timeout = 0)]
      by_cases hlt : ctx.last_message_time + s.keep_alive_timeout < now
      · simp [hlt]
      · simp [hlt]
    constructor
    · simp only [On_timer]
      rw [spec.1, heval_close]
      omega
    · intro hnt
      have hsend : On_timer_action s.keep_alive_timeout now (sid, ctx) =
          some (Timer_action.send sid ping_message) := by
        simp only [On_timer_action, hu]
        rw [if_pos (by omega : ¬s.keep_alive_timeout = 0),
          if_neg (by omega : ¬ctx.last_message_time + s.keep_alive_timeout < now)]
      constructor
      · simp only [On_timer]
        rw [spec.2.1, if_pos hsend]
      · simp only [On_timer]
        rw [spec.1, heval_close]
        omega
  · intro hu
    have heval_close :
        (On_timer_action s.keep_alive_timeout now (sid, ctx) =
          some (Timer_action.close sid)) ↔
        ctx.last_message_time + REGISTER_PEER_TIMEOUT < now := by
      simp only [On_timer_action, hu]
      by_cases hlt : ctx.last_message_time + REGISTER_PEER_TIMEOUT < now
      · simp [hlt]
      · simp [hlt]
    constructor
    · simp only [On_timer]
      rw [spec.1, heval_close]
      omega
    · simp only [On_timer]
      rw [spec.2.2]
      simp only [On_timer_action, hu]
      by_cases hlt : ctx.last_message_time + REGISTER_PEER_TIMEOUT < now
      · simp [hlt]
      · simp [hlt]
  · intro s1 ctx1 u hc1 hu1 hcomp1
    simp only [Send_ucs_message, hc1, hu1]
    unfold Send_ucs_message_body
    rw [if_neg (by simp [hcomp1]),
      if_neg (by simp [ping_message]),
      if_neg (by simp [ping_message]),
      send_finish_alloc _ _ _ rfl rfl]
    exact ⟨rfl, rfl⟩

/-- C9 witness: the timer theorem applied to the concrete state C9_state
(one handshaken connection for peer 5 on stream 1, last message at time 0,
keep_alive_timeout 5) at time 3: no timeout, so exactly one ping and no
close; and the send path on C6_pre allocates the fresh id 12 for the ping. -/
theorem C9_timer_tick_witness :
    (C9_state.ucs_connections.map Prod.fst).Nodup ∧
    (1, C6_ctx) ∈ C9_state.ucs_connections ∧
    (On_timer C9_state 3).2 = true ∧
    ((Timer_action.close 1 ∈ (On_timer C9_state 3).1) ↔
      (3 : Int) - C6_ctx.last_message_time > C9_state.keep_alive_timeout) ∧
    ((On_timer C9_state 3).1.count (Timer_action.send 1 ping_message) = 1 ∧
      Timer_action.close 1 ∉ (On_timer C9_state 3).1) ∧
    ((Send_ucs_message C6_pre 1 ping_message).2.1.message_id =
        some C6_pre.ucs_id_counter ∧
      (Send_ucs_message C6_pre 1 ping_message).1.ucs_id_counter =
        C6_pre.ucs_id_counter + 1) :=
  have h := C9_timer_tick C9_state 3 1 C6_ctx (by decide) (by decide)
  ⟨by decide, by decide, h.1,
    (h.2.1 5 (by decide) (by decide)).1,
    (h.2.1 5 (by decide) (by decide)).2 (by decide),
    h.2.2.2.2 C6_pre C6_ctx 5 (by decide) (by decide) (by decide)⟩

/-! ### C5 -/

/-- update_conn only touches the connection table. -/
theorem update_conn_vehicles (s : Cucs_state) (id : Nat)
    (f : Server_context → Server_context) :
    (update_conn s id f).vehicles = s.vehicles := rfl

/-- A plain device-bound message (no register_device flag, no response
required) on a compatible handshaken connection is written unchanged,
provided its device id is 0 or registered without the unregister flag. -/
theorem send_plain (s : Cucs_state) (sid : Nat) (ctx : Server_context)
    (u : Nat) (m : Vsm_message) (hc : get_conn s sid = some ctx)
    (hu : ctx.ucs_id = some u) (hcomp : ctx.is_compatible = true)
    (hreg : m.register_device = false)
    (hnr : ¬m.response_required = some true)
    (hdev : m.device_id = 0 ∨
      (m.device_id ∈ ctx.registered_devices ∧ m.unregister_device = false)) :
    Send_ucs_message s sid m = (s, m, [Effect.stream_write sid m]) := by
  simp only [Send_ucs_message, hc, hu]
  unfold Send_ucs_message_body
  rw [if_neg (by simp [hcomp]), if_neg (by simp [hreg])]
  rcases hdev with h0 | ⟨hmem, hunreg⟩
  · rw [if_neg (by simp [h0])]
    exact send_finish_no_response _ _ _ hnr
  · by_cases h0 : m.device_id ≠ 0
    · rw [if_pos h0, if_neg (by simp [hmem]), if_neg (by simp [hunreg])]
      exact send_finish_no_response _ _ _ hnr
    · rw [if_neg h0]
      exact send_finish_no_response _ _ _ hnr

/-- A device that is present in the vehicle table gets exactly one
Handle_ucs_info notification from Notify_device_about_ucs_connections. -/
theorem notify_shape (s : Cucs_state) (dev : Nat) (v : Nat × Vehicle_context)
    (h : s.vehicles.find? (fun w => w.1 == dev) = some v) :
    ∃ data, Notify_device_about_ucs_connections s dev =
      [Effect.notify_ucs_info dev data] := by
  unfold Notify_device_about_ucs_connections
  rw [h]
  exact ⟨_, rfl⟩

/-- C5, amended (the claim as stated fails when the device has been removed
from the vehicle table while its registration was pending, see
C5_counterexample): when a device_response arrives on a handshaken compatible
connection and its message id is a pending registration (mapping to device
dev under key mid): with code STATUS_OK and the device still in the vehicle
table, the device is added to the connection's registered_devices, the device
is notified of its peer set, a synthetic device_status carrying every
telemetry-cache entry except those holding the N/A meta-value plus the full
availability cache is written on that same connection, and the pending entry
is removed; with code STATUS_OK but the device gone from the vehicle table,
only the pending entry is removed (no insertion, no notification, no write);
with STATUS_IN_PROGRESS the pending entry is kept; with any other code the
pending entry is removed and the device is not added. -/
theorem C5_device_response_dispatch (s : Cucs_state) (sid : Nat)
    (ctx : Server_context) (msg : Vsm_message) (now : Int) (u : Nat)
    (resp : Device_response) (mid dev : Nat)
    (hc : get_conn s sid = some ctx) (hu : ctx.ucs_id = some u)
    (hcomp : ctx.is_compatible = true)
    (hresp : msg.device_response = some resp)
    (hpend : ctx.pending_registrations.find?
      (fun m => m.1 == msg.message_id_val) = some (mid, dev)) :
    (resp.code = STATUS_OK →
      (∀ v, s.vehicles.find? (fun w => w.1 == dev) = some v →
        (get_conn (Process_vsm_message s sid msg now).1 sid).map
            (fun c => c.registered_devices) =
          some (set_insert ctx.registered_devices dev) ∧
        (get_conn (Process_vsm_message s sid msg now).1 sid).map
            (fun c => c.pending_registrations) =
          some (pending_erase_key ctx.pending_registrations mid) ∧
        (∃ data, (Process_vsm_message s sid msg now).2 =
          [Effect.notify_ucs_info dev data,
           Effect.stream_write sid
             { device_id := v.1,
               device_status := some
                 { telemetry_fields :=
                     ((v.2.telemetry_cache.filter
                       (fun e => !(e.2.meta_value == some Meta_value.na))).map
                         (fun e => e.2)),
                   command_availability :=
                     v.2.availability_cache.map (fun e => e.2) } }])) ∧
      (s.vehicles.find? (fun w => w.1 == dev) = none →
        (get_conn (Process_vsm_message s sid msg now).1 sid).map
            (fun c => c.registered_devices) = some ctx.registered_devices ∧
        (get_conn (Process_vsm_message s sid msg now).1 sid).map
            (fun c => c.pending_registrations) =
          some (pending_erase_key ctx.pending_registrations mid) ∧
        (Process_vsm_message s sid msg now).2 = [])) ∧
    (resp.code = STATUS_IN_PROGRESS →
      (get_conn (Process_vsm_message s sid msg now).1 sid).map
          (fun c => c.pending_registrations) =
        some ctx.pending_registrations ∧
      (get_conn (Process_vsm_message s sid msg now).1 sid).map
          (fun c => c.last_message_time) = some now ∧
      (Process_vsm_message s sid msg now).2 = []) ∧
    (resp.code ≠ STATUS_OK → resp.code ≠ STATUS_IN_PROGRESS →
      (get_conn (Process_vsm_message s sid msg now).1 sid).map
          (fun c => c.registered_devices) = some ctx.registered_devices ∧
      (get_conn (Process_vsm_message s sid msg now).1 sid).map
          (fun c => c.pending_registrations) =
        some (pending_erase_key ctx.pending_registrations mid) ∧
      (Process_vsm_message s sid msg now).2 = []) := by
  have hredux : Process_vsm_message s sid msg now =
      Process_known_peer_message s sid ctx msg now := by
    simp only [Process_vsm_message, hc, hu]
  refine ⟨fun hok => ⟨fun v hveh => ?_, fun hveh => ?_⟩,
    fun hprog => ?_, fun hno hnp => ?_⟩
  · have hvdev : v.1 = dev := by
      have := List.find?_some hveh
      simpa using this
    rw [hredux]
    unfold Process_known_peer_message
    simp only [hresp, hpend, if_pos hok, update_conn_vehicles, hveh]
    have hcA : get_conn (update_conn s sid
        (fun _ => { ctx with last_message_time := now })) sid =
        some { ctx with last_message_time := now } := by
      rw [get_conn_update_self, hc]
      rfl
    have hcB : get_conn (update_conn (update_conn s sid
        (fun _ => { ctx with last_message_time := now })) sid
        (fun _ =>
          { ctx with
            last_message_time := now,
            registered_devices := set_insert ctx.registered_devices dev })) sid =
        some
          { ctx with
            last_message_time := now,
            registered_devices := set_insert ctx.registered_devices dev } := by
      rw [get_conn_update_self, hcA]
      rfl
    rw [send_plain _ sid _ u
      { device_id := v.1,
        device_status := some
          { telemetry_fields :=
              ((v.2.telemetry_cache.filter
                (fun e => !(e.2.meta_value == some Meta_value.na))).map
                  (fun e => e.2)),
            command_availability := v.2.availability_cache.map (fun e => e.2) } }
      hcB hu hcomp rfl (by simp)
      (Or.inr ⟨by rw [hvdev]; exact mem_set_insert_self _ _, rfl⟩)]
    refine ⟨?_, ?_, ?_⟩
    · rw [get_conn_update_self, hcB]
      rfl
    · rw [get_conn_update_self, hcB]
      rfl
    · obtain ⟨data, hdata⟩ := notify_shape
        (update_conn (update_conn s sid
          (fun _ => { ctx with last_message_time := now })) sid
          (fun _ =>
            { ctx with
              last_message_time := now,
              registered_devices := set_insert ctx.registered_devices dev }))
        dev v (by rw [update_conn_vehicles, update_conn_vehicles]; exact hveh)
      refine ⟨data, ?_⟩
      rw [hdata]
      rfl
  · rw [hredux]
    unfold Process_known_peer_message
    simp only [hresp, hpend, if_pos hok, update_conn_vehicles, hveh]
    have hcA : get_conn (update_conn s sid
        (fun _ => { ctx with last_message_time := now })) sid =
        some { ctx with last_message_time := now } := by
      rw [get_conn_update_self, hc]
      rfl
    refine ⟨?_, ?_, by trivial⟩
    · rw [get_conn_update_self, hcA]
      rfl
    · rw [get_conn_update_self, hcA]
      rfl
  · rw [hredux]
    unfold Process_known_peer_message
    simp only [hresp, hpend]
    rw [if_neg (by rw [hprog]; decide), if_pos hprog]
    have hcA : get_conn (update_conn s sid
        (fun _ => { ctx with last_message_time := now })) sid =
        some { ctx with last_message_time := now } := by
      rw [get_conn_update_self, hc]
      rfl
    refine ⟨?_, ?_, by trivial⟩
    · rw [hcA]
      rfl
    · rw [hcA]
      rfl
  · rw [hredux]
    unfold Process_known_peer_message
    simp only [hresp, hpend]
    rw [if_neg hno, if_neg hnp]
    have hcA : get_conn (update_conn s sid
        (fun _ => { ctx with last_message_time := now })) sid =
        some { ctx with last_message_time := now } := by
      rw [get_conn_update_self, hc]
      rfl
    refine ⟨?_, ?_, by trivial⟩
    · rw [get_conn_update_self, hcA]
      rfl
    · rw [get_conn_update_self, hcA]
      rfl


/-- Concrete instance of C5_device_response_dispatch: on C5_pre_live the
STATUS_OK response for pending message id 4 registers device 7 on connection
1, erases the pending entry, notifies device 7 of its peer set and writes the
synthetic device_status (telemetry fields 1 and 3 — field 2 holds the N/A
meta-value and is filtered out — plus the availability entry) back on
connection 1. -/
theorem C5_device_response_dispatch_witness :
    get_conn C5_pre_live 1 = some C5_ctx ∧
    C5_ctx.pending_registrations.find?
      (fun m => m.1 == C5_ok_response.message_id_val) = some (4, 7) ∧
    ((get_conn (Process_vsm_message C5_pre_live 1 C5_ok_response 100).1 1).map
        (fun c => c.registered_devices) =
      some (set_insert C5_ctx.registered_devices 7) ∧
    (get_conn (Process_vsm_message C5_pre_live 1 C5_ok_response 100).1 1).map
        (fun c => c.pending_registrations) =
      some (pending_erase_key C5_ctx.pending_registrations 4) ∧
    (∃ data, (Process_vsm_message C5_pre_live 1 C5_ok_response 100).2 =
      [Effect.notify_ucs_info 7 data,
       Effect.stream_write 1
         { device_id := (7, C5_vehicle).1,
           device_status := some
             { telemetry_fields :=
                 (((7, C5_vehicle).2.telemetry_cache.filter
                   (fun e => !(e.2.meta_value == some Meta_value.na))).map
                     (fun e => e.2)),
               command_availability :=
                 (7, C5_vehicle).2.availability_cache.map (fun e => e.2) } }])) :=
  ⟨rfl, rfl,
    ((C5_device_response_dispatch C5_pre_live 1 C5_ctx C5_ok_response 100 5
      { code := STATUS_OK } 4 7 rfl rfl rfl rfl rfl).1 rfl).1
      (7, C5_vehicle) rfl⟩

/-- Counterexample to C5 as stated: on C5_pre the registration of device 7 is
pending under message id 4 and a STATUS_OK device_response for it arrives,
but device 7 has meanwhile left the vehicle table, so the guarded STATUS_OK
branch only erases the pending entry: the device is not added to
registered_devices, no notification and no synthetic device_status write is
emitted. -/
theorem C5_counterexample :
    get_conn C5_pre 1 = some C5_ctx ∧
    C5_ctx.pending_registrations.find?
      (fun m => m.1 == C5_ok_response.message_id_val) = some (4, 7) ∧
    C5_ok_response.device_response = some { code := STATUS_OK } ∧
    (get_conn (Process_vsm_message C5_pre 1 C5_ok_response 100).1 1).map
      (fun c => c.registered_devices) = some [] ∧
    (get_conn (Process_vsm_message C5_pre 1 C5_ok_response 100).1 1).map
      (fun c => c.pending_registrations) = some [] ∧
    (Process_vsm_message C5_pre 1 C5_ok_response 100).2 = [] :=
  ⟨rfl, rfl, rfl, rfl, rfl, rfl⟩

/-! ### C3 -/

/-- On a connection list with unique stream ids, the lookup of a member's key
returns that member. -/
theorem find?_key_of_mem_nodup :
    ∀ (L : List (Nat × Server_context)) (k : Nat) (c : Server_context),
      (L.map Prod.fst).Nodup → (k, c) ∈ L →
      L.find? (fun e => e.1 == k) = some (k, c) := by
  intro L
  induction L with
  | nil => intro k c _ hmem; cases hmem
  | cons e L ih =>
    intro k c hnd hmem
    rw [List.map_cons] at hnd
    have hnd2 := List.nodup_cons.mp hnd
    rcases List.mem_cons.mp hmem with he | htl
    · rw [← he]
      simp [List.find?_cons]
    · have hk : e.1 ≠ k := by
        intro hcontra
        exact hnd2.1 (hcontra ▸ List.mem_map.mpr ⟨(k, c), htl, rfl⟩)
      have hpe : (e.1 == k) = false := by simp [hk]
      simp only [List.find?_cons, hpe]
      exact ih k c hnd2.2 htl

/-- Session-field preservation projects to the (peer id, primary) pair. -/
theorem get_conn_pair_of_session (t u : Cucs_state) (i : Nat)
    (h : (get_conn t i).map conn_session = (get_conn u i).map conn_session) :
    (get_conn t i).map (fun c => (c.ucs_id, c.primary)) =
      (get_conn u i).map (fun c => (c.ucs_id, c.primary)) := by
  cases ht : get_conn t i <;> cases hs : get_conn u i <;>
    rw [ht, hs] at h <;>
    simp_all [conn_session, Prod.ext_iff]

/-- Session-field preservation projects to the primary flag. -/
theorem get_conn_primary_of_session (t u : Cucs_state) (i : Nat)
    (h : (get_conn t i).map conn_session = (get_conn u i).map conn_session) :
    (get_conn t i).map (fun c => c.primary) =
      (get_conn u i).map (fun c => c.primary) := by
  cases ht : get_conn t i <;> cases hs : get_conn u i <;>
    rw [ht, hs] at h <;>
    simp_all [conn_session, Prod.ext_iff]

/-- C3, amended (the switch condition in the source is
"old primary not loopback OR newcomer loopback", not "old primary not
loopback AND newcomer loopback", see C3_counterexample): in the register_peer
handshake on a fresh connection (peer still unset): if no sibling carries the
new peer id, the newcomer records the peer id and becomes primary; if a
primary sibling o exists and !o.loopback || new.loopback holds — always
except when the old primary is loopback and the newcomer is not — the
newcomer becomes primary and o is demoted; only in the remaining case (old
primary loopback, newcomer non-loopback) does the newcomer keep its previous
primary flag while o stays primary. -/
theorem C3_primary_selection (s : Cucs_state) (stream_id : Nat)
    (ctx : Server_context) (rp : Register_peer_payload)
    (hnd : (s.ucs_connections.map Prod.fst).Nodup)
    (hc : get_conn s stream_id = some ctx)
    (hun : ctx.ucs_id = none) :
    (s.ucs_connections.any (fun u => u.2.ucs_id == some rp.peer_id) = false →
      s.ucs_connections.find?
        (fun u => u.2.ucs_id == some rp.peer_id && u.2.primary) = none →
      (get_conn (Handle_register_peer s stream_id ctx rp).1 stream_id).map
        (fun c => (c.ucs_id, c.primary)) = some (some rp.peer_id, true)) ∧
    (∀ o, s.ucs_connections.find?
        (fun u => u.2.ucs_id == some rp.peer_id && u.2.primary) = some o →
      (!o.2.address.is_loopback || ctx.address.is_loopback) = true →
      (get_conn (Handle_register_peer s stream_id ctx rp).1 stream_id).map
        (fun c => (c.ucs_id, c.primary)) = some (some rp.peer_id, true) ∧
      (get_conn (Handle_register_peer s stream_id ctx rp).1 o.1).map
        (fun c => c.primary) = some false) ∧
    (∀ o, s.ucs_connections.find?
        (fun u => u.2.ucs_id == some rp.peer_id && u.2.primary) = some o →
      (!o.2.address.is_loopback || ctx.address.is_loopback) = false →
      (get_conn (Handle_register_peer s stream_id ctx rp).1 stream_id).map
        (fun c => (c.ucs_id, c.primary)) =
          some (some rp.peer_id, ctx.primary) ∧
      (get_conn (Handle_register_peer s stream_id ctx rp).1 o.1).map
        (fun c => c.primary) = some true) := by
  refine ⟨fun hdup hfp => ?_, fun o hfp hsw => ?_, fun o hfp hsw => ?_⟩
  · unfold Handle_register_peer
    simp only [hfp, hdup]
    rw [get_conn_pair_of_session _ _ _
      (send_vehicle_registrations_preserves_session _ stream_id stream_id)]
    rw [get_conn_update_self, hc]
    rfl
  · have hpred := List.find?_some hfp
    rw [Bool.and_eq_true] at hpred
    have ho_ucs : (o.2.ucs_id == some rp.peer_id) = true := hpred.1
    have ho_mem : (o.1, o.2) ∈ s.ucs_connections := by
      have := List.mem_of_find?_eq_some hfp
      simpa using this
    have hg : get_conn s o.1 = some o.2 := by
      unfold get_conn
      rw [find?_key_of_mem_nodup _ _ _ hnd ho_mem]
      rfl
    have ho_ne : o.1 ≠ stream_id := by
      intro hcontra
      rw [hcontra, hc] at hg
      have he : o.2 = ctx := by
        injection hg with h2
        exact h2.symm
      rw [he, hun] at ho_ucs
      simp at ho_ucs
    unfold Handle_register_peer
    simp only [hfp, if_pos hsw]
    refine ⟨?_, ?_⟩
    · rw [get_conn_pair_of_session _ _ _
        (send_vehicle_registrations_preserves_session _ stream_id stream_id)]
      rw [get_conn_update_self]
      rw [get_conn_update_other _ _ _ _ (Ne.symm ho_ne), hc]
      rfl
    · rw [get_conn_primary_of_session _ _ _
        (send_vehicle_registrations_preserves_session _ stream_id o.1)]
      rw [get_conn_update_other _ _ _ _ ho_ne]
      rw [get_conn_update_self, hg]
      rfl
  · have hpred := List.find?_some hfp
    rw [Bool.and_eq_true] at hpred
    have ho_ucs : (o.2.ucs_id == some rp.peer_id) = true := hpred.1
    have ho_pri : o.2.primary = true := hpred.2
    have ho_mem : (o.1, o.2) ∈ s.ucs_connections := by
      have := List.mem_of_find?_eq_some hfp
      simpa using this
    have hg : get_conn s o.1 = some o.2 := by
      unfold get_conn
      rw [find?_key_of_mem_nodup _ _ _ hnd ho_mem]
      rfl
    have ho_ne : o.1 ≠ stream_id := by
      intro hcontra
      rw [hcontra, hc] at hg
      have he : o.2 = ctx := by
        injection hg with h2
        exact h2.symm
      rw [he, hun] at ho_ucs
      simp at ho_ucs
    have hdup : s.ucs_connections.any
        (fun u => u.2.ucs_id == some rp.peer_id) = true :=
      List.any_eq_true.mpr ⟨(o.1, o.2), ho_mem, ho_ucs⟩
    have hneg : ¬((!o.2.address.is_loopback || ctx.address.is_loopback) = true) := by
      rw [hsw]
      simp
    have hneg2 : ¬((!s.ucs_connections.any
        (fun u => u.2.ucs_id == some rp.peer_id)) = true) := by
      rw [hdup]
      simp
    unfold Handle_register_peer
    simp only [hfp, if_neg hneg, if_neg hneg2]
    refine ⟨?_, ?_⟩
    · rw [get_conn_pair_of_session _ _ _
        (send_vehicle_registrations_preserves_session _ stream_id stream_id)]
      rw [get_conn_update_self, hc]
      rfl
    · rw [get_conn_primary_of_session _ _ _
        (send_vehicle_registrations_preserves_session _ stream_id o.1)]
      rw [get_conn_update_other _ _ _ _ ho_ne]
      rw [hg]
      show some o.2.primary = some true
      rw [ho_pri]

/-- The register_peer payload used in the C3 witness: peer 5 announcing the
supported protocol version. -/
def C3_rp : Register_peer_payload :=
  { peer_id := 5, peer_type := some PEER_TYPE_SERVER,
    version_major := some SUPPORTED_UCS_VERSION_MAJOR,
    version_minor := some SUPPORTED_UCS_VERSION_MINOR,
    version_build := none }

/-- Concrete instance of C3_primary_selection on C3_pre: stream 1 is the
non-loopback primary for peer 5 and the non-loopback stream 2 registers as
peer 5; the switch condition !old.loopback || new.loopback holds, so stream 2
becomes primary and stream 1 is demoted. -/
theorem C3_primary_selection_witness :
    (C3_pre.ucs_connections.map Prod.fst).Nodup ∧
    get_conn C3_pre 2 = some { mk_conn 2 false false with ucs_id := none } ∧
    ({ mk_conn 2 false false with ucs_id := none } : Server_context).ucs_id
      = none ∧
    C3_pre.ucs_connections.find?
      (fun u => u.2.ucs_id == some C3_rp.peer_id && u.2.primary) =
        some (1, mk_conn 1 false true) ∧
    (!(mk_conn 1 false true).address.is_loopback ||
      ({ mk_conn 2 false false with ucs_id := none } :
        Server_context).address.is_loopback) = true ∧
    (get_conn (Handle_register_peer C3_pre 2
        { mk_conn 2 false false with ucs_id := none } C3_rp).1 2).map
      (fun c => (c.ucs_id, c.primary)) = some (some C3_rp.peer_id, true) ∧
    (get_conn (Handle_register_peer C3_pre 2
        { mk_conn 2 false false with ucs_id := none } C3_rp).1 1).map
      (fun c => c.primary) = some false :=
  ⟨by decide, rfl, rfl, rfl, rfl,
    ((C3_primary_selection C3_pre 2
        { mk_conn 2 false false with ucs_id := none } C3_rp (by decide) rfl
        rfl).2.1 (1, mk_conn 1 false true) rfl rfl).1,
    ((C3_primary_selection C3_pre 2
        { mk_conn 2 false false with ucs_id := none } C3_rp (by decide) rfl
        rfl).2.1 (1, mk_conn 1 false true) rfl rfl).2⟩

end VsmSdk


